import Mathlib

/-! Options translation of the `mongodb` package.

A shallow embedding of `options_builder.go`: the five translators
`BuildDatabaseOptions`, `BuildFindManyOptions`, `BuildFindOneOptions`,
`BuildUpdateOneOptions`, `BuildUpdateManyOptions` and the generic helper
`setOption`.

Conventions of the embedding:

* a Go pointer `*T` is an `Option T` (`none` is the nil pointer); pointer identity
  is not modelled, only the pointed-to value;
* a Go `interface{}` value is an `Any` (`Any.nil` is the nil interface);
* a Go slice `[]any` is an `Option (List Any)` (`none` is the nil slice, `some []`
  an allocated empty slice);
* `int32`, `int64`, `time.Duration` and `CursorType` values are `Int`; the
  translators do no arithmetic on them;
* a translator that dereferences a nil pointer panics: it returns `none`;
* a driver builder (`*options.FindOptionsBuilder`, ...) holds the ordered list
  `Opts` of setter calls made on it; resolving the builder applies these
  setters, in order, to an empty options value, as the driver does before it
  runs the command;
* the identifier `Sort` is reserved in Lean: the field `Sort` is written `Sort_`.
-/

namespace Mongodb

/-! ## Values of the driver -/

/-- Dynamic values held by a Go `interface{}` (`any`): the nil interface, booleans,
integers, strings, arrays (`[]any`) and documents (`map[string]any`, `bson.D`),
as the test builds them, and a pointer to an interface value (`*interface{}`),
which is what the driver's find and find-one builders store for a comment. A
pointer is never the nil interface, also when it points to a nil value. -/
inductive Any where
  | nil : Any
  | bool (b : Bool) : Any
  | int (i : Int) : Any
  | str (s : String) : Any
  | arr (xs : List Any) : Any
  | doc (kvs : List (String × Any)) : Any
  | ptr (v : Any) : Any

/-- Whether an interface value is the nil interface. -/
def Any.isNil : Any → Bool
  | .nil => true
  | _ => false

/-- Modelled from the spec: the driver's `options.Collation` struct, declared in
the driver package and not in this repository; the translators only copy the
pointer to it. -/
structure Collation where
  Locale : String := ""
  CaseLevel : Bool := false
  CaseFirst : String := ""
  Strength : Int := 0
  NumericOrdering : Bool := false
  Alternate : String := ""
  MaxVariable : String := ""
  Normalization : Bool := false
  Backwards : Bool := false
  deriving DecidableEq

/-- Generic helper `setOption[O, V](builder *O, value *V, set func(V) *O) *O`:
calls `set(*value)` when `value` is non-nil and returns `builder` otherwise. -/
def setOption {O V : Type} (builder : O) (value : Option V) (set : V → O) : O :=
  match value with
  | some v => set v
  | none => builder

/-! ## FindOptions -/

/-- Modelled from the spec: the driver's `options.FindOptions` struct, declared in the
driver package and not in this repository: every field is a pointer, an
interface value or a slice. -/
structure FindOptions where
  AllowPartialResults : Option Bool := none
  Collation : Option Collation := none
  Comment : Any := Any.nil
  Hint : Any := Any.nil
  Max : Any := Any.nil
  MaxAwaitTime : Option Int := none
  Min : Any := Any.nil
  OplogReplay : Option Bool := none
  Projection : Any := Any.nil
  ReturnKey : Option Bool := none
  ShowRecordID : Option Bool := none
  Skip : Option Int := none
  Sort_ : Any := Any.nil
  AllowDiskUse : Option Bool := none
  BatchSize : Option Int := none
  CursorType : Option Int := none
  Let : Any := Any.nil
  Limit : Option Int := none
  NoCursorTimeout : Option Bool := none

/-- The fields of `options.FindOptions`. -/
inductive FindField where
  | AllowPartialResults
  | Collation
  | Comment
  | Hint
  | Max
  | MaxAwaitTime
  | Min
  | OplogReplay
  | Projection
  | ReturnKey
  | ShowRecordID
  | Skip
  | Sort_
  | AllowDiskUse
  | BatchSize
  | CursorType
  | Let
  | Limit
  | NoCursorTimeout
  deriving DecidableEq, Repr

/-- Whether the Go type of the field is a pointer (`*bool`, `*int64`, `*Collation`, ...)
rather than an interface value or a slice. -/
def FindField.isPointer : FindField → Bool
  | .AllowPartialResults => true
  | .Collation => true
  | .Comment => false
  | .Hint => false
  | .Max => false
  | .MaxAwaitTime => true
  | .Min => false
  | .OplogReplay => true
  | .Projection => false
  | .ReturnKey => true
  | .ShowRecordID => true
  | .Skip => true
  | .Sort_ => false
  | .AllowDiskUse => true
  | .BatchSize => true
  | .CursorType => true
  | .Let => false
  | .Limit => true
  | .NoCursorTimeout => true

/-- Whether the field is non-nil in the options value. -/
def FindOptions.isSet (o : FindOptions) : FindField → Bool
  | .AllowPartialResults => o.AllowPartialResults.isSome
  | .Collation => o.Collation.isSome
  | .Comment => !o.Comment.isNil
  | .Hint => !o.Hint.isNil
  | .Max => !o.Max.isNil
  | .MaxAwaitTime => o.MaxAwaitTime.isSome
  | .Min => !o.Min.isNil
  | .OplogReplay => o.OplogReplay.isSome
  | .Projection => !o.Projection.isNil
  | .ReturnKey => o.ReturnKey.isSome
  | .ShowRecordID => o.ShowRecordID.isSome
  | .Skip => o.Skip.isSome
  | .Sort_ => !o.Sort_.isNil
  | .AllowDiskUse => o.AllowDiskUse.isSome
  | .BatchSize => o.BatchSize.isSome
  | .CursorType => o.CursorType.isSome
  | .Let => !o.Let.isNil
  | .Limit => o.Limit.isSome
  | .NoCursorTimeout => o.NoCursorTimeout.isSome

/-- Two options values hold the same value in the field. -/
def FindOptions.agreeOn (f : FindField) (a b : FindOptions) : Prop :=
  match f with
  | .AllowPartialResults => a.AllowPartialResults = b.AllowPartialResults
  | .Collation => a.Collation = b.Collation
  | .Comment => a.Comment = b.Comment
  | .Hint => a.Hint = b.Hint
  | .Max => a.Max = b.Max
  | .MaxAwaitTime => a.MaxAwaitTime = b.MaxAwaitTime
  | .Min => a.Min = b.Min
  | .OplogReplay => a.OplogReplay = b.OplogReplay
  | .Projection => a.Projection = b.Projection
  | .ReturnKey => a.ReturnKey = b.ReturnKey
  | .ShowRecordID => a.ShowRecordID = b.ShowRecordID
  | .Skip => a.Skip = b.Skip
  | .Sort_ => a.Sort_ = b.Sort_
  | .AllowDiskUse => a.AllowDiskUse = b.AllowDiskUse
  | .BatchSize => a.BatchSize = b.BatchSize
  | .CursorType => a.CursorType = b.CursorType
  | .Let => a.Let = b.Let
  | .Limit => a.Limit = b.Limit
  | .NoCursorTimeout => a.NoCursorTimeout = b.NoCursorTimeout

/-- Modelled from the spec: one recorded call of a `Set*` method of the driver's
`*options.FindOptionsBuilder` (declared in the driver package), with its argument. -/
inductive FindSetter where
  | SetAllowPartialResults (b : Bool)
  | SetCollation (c : Option Collation)
  | SetComment (comment : Any)
  | SetHint (v : Any)
  | SetMax (v : Any)
  | SetMaxAwaitTime (i : Int)
  | SetMin (v : Any)
  | SetOplogReplay (b : Bool)
  | SetProjection (v : Any)
  | SetReturnKey (b : Bool)
  | SetShowRecordID (b : Bool)
  | SetSkip (i : Int)
  | SetSort (v : Any)
  | SetAllowDiskUse (b : Bool)
  | SetBatchSize (i : Int)
  | SetCursorType (i : Int)
  | SetLet (v : Any)
  | SetLimit (i : Int)
  | SetNoCursorTimeout (b : Bool)

/-- The field a recorded setter assigns. -/
def FindSetter.field : FindSetter → FindField
  | .SetAllowPartialResults _ => .AllowPartialResults
  | .SetCollation _ => .Collation
  | .SetComment _ => .Comment
  | .SetHint _ => .Hint
  | .SetMax _ => .Max
  | .SetMaxAwaitTime _ => .MaxAwaitTime
  | .SetMin _ => .Min
  | .SetOplogReplay _ => .OplogReplay
  | .SetProjection _ => .Projection
  | .SetReturnKey _ => .ReturnKey
  | .SetShowRecordID _ => .ShowRecordID
  | .SetSkip _ => .Skip
  | .SetSort _ => .Sort_
  | .SetAllowDiskUse _ => .AllowDiskUse
  | .SetBatchSize _ => .BatchSize
  | .SetCursorType _ => .CursorType
  | .SetLet _ => .Let
  | .SetLimit _ => .Limit
  | .SetNoCursorTimeout _ => .NoCursorTimeout

/-- Modelled from the spec: the assignment a recorded setter of the driver performs
on the options value: a scalar setter stores the address of its argument, and so
does `SetComment` (`opts.Comment = &comment`, a pointer to the interface value);
the other setters store the pointer or interface value they were given. -/
def FindSetter.apply (s : FindSetter) (o : FindOptions) : FindOptions :=
  match s with
  | .SetAllowPartialResults b => { o with AllowPartialResults := some b }
  | .SetCollation c => { o with Collation := c }
  | .SetComment comment => { o with Comment := Any.ptr comment }
  | .SetHint v => { o with Hint := v }
  | .SetMax v => { o with Max := v }
  | .SetMaxAwaitTime i => { o with MaxAwaitTime := some i }
  | .SetMin v => { o with Min := v }
  | .SetOplogReplay b => { o with OplogReplay := some b }
  | .SetProjection v => { o with Projection := v }
  | .SetReturnKey b => { o with ReturnKey := some b }
  | .SetShowRecordID b => { o with ShowRecordID := some b }
  | .SetSkip i => { o with Skip := some i }
  | .SetSort v => { o with Sort_ := v }
  | .SetAllowDiskUse b => { o with AllowDiskUse := some b }
  | .SetBatchSize i => { o with BatchSize := some i }
  | .SetCursorType i => { o with CursorType := some i }
  | .SetLet v => { o with Let := v }
  | .SetLimit i => { o with Limit := some i }
  | .SetNoCursorTimeout b => { o with NoCursorTimeout := some b }

/-- Modelled from the spec: the driver's builder `*options.FindOptionsBuilder` (declared in the
driver package): the setters recorded so far, oldest first. -/
structure FindOptionsBuilder where
  Opts : List FindSetter

namespace FindOptionsBuilder

/-- Modelled from the spec: what every `Set*` method of the driver's builder does: it
appends its setter to `Opts` and returns the builder. The methods follow. -/
def record (f : FindOptionsBuilder) (s : FindSetter) : FindOptionsBuilder :=
  { Opts := f.Opts ++ [s] }

abbrev SetAllowPartialResults (f : FindOptionsBuilder) : Bool → FindOptionsBuilder :=
  fun b => f.record (.SetAllowPartialResults b)

abbrev SetCollation (f : FindOptionsBuilder) : Option Collation → FindOptionsBuilder :=
  fun c => f.record (.SetCollation c)

abbrev SetComment (f : FindOptionsBuilder) : Any → FindOptionsBuilder :=
  fun comment => f.record (.SetComment comment)

abbrev SetHint (f : FindOptionsBuilder) : Any → FindOptionsBuilder :=
  fun v => f.record (.SetHint v)

abbrev SetMax (f : FindOptionsBuilder) : Any → FindOptionsBuilder :=
  fun v => f.record (.SetMax v)

abbrev SetMaxAwaitTime (f : FindOptionsBuilder) : Int → FindOptionsBuilder :=
  fun i => f.record (.SetMaxAwaitTime i)

abbrev SetMin (f : FindOptionsBuilder) : Any → FindOptionsBuilder :=
  fun v => f.record (.SetMin v)

abbrev SetOplogReplay (f : FindOptionsBuilder) : Bool → FindOptionsBuilder :=
  fun b => f.record (.SetOplogReplay b)

abbrev SetProjection (f : FindOptionsBuilder) : Any → FindOptionsBuilder :=
  fun v => f.record (.SetProjection v)

abbrev SetReturnKey (f : FindOptionsBuilder) : Bool → FindOptionsBuilder :=
  fun b => f.record (.SetReturnKey b)

abbrev SetShowRecordID (f : FindOptionsBuilder) : Bool → FindOptionsBuilder :=
  fun b => f.record (.SetShowRecordID b)

abbrev SetSkip (f : FindOptionsBuilder) : Int → FindOptionsBuilder :=
  fun i => f.record (.SetSkip i)

abbrev SetSort (f : FindOptionsBuilder) : Any → FindOptionsBuilder :=
  fun v => f.record (.SetSort v)

abbrev SetAllowDiskUse (f : FindOptionsBuilder) : Bool → FindOptionsBuilder :=
  fun b => f.record (.SetAllowDiskUse b)

abbrev SetBatchSize (f : FindOptionsBuilder) : Int → FindOptionsBuilder :=
  fun i => f.record (.SetBatchSize i)

abbrev SetCursorType (f : FindOptionsBuilder) : Int → FindOptionsBuilder :=
  fun i => f.record (.SetCursorType i)

abbrev SetLet (f : FindOptionsBuilder) : Any → FindOptionsBuilder :=
  fun v => f.record (.SetLet v)

abbrev SetLimit (f : FindOptionsBuilder) : Int → FindOptionsBuilder :=
  fun i => f.record (.SetLimit i)

abbrev SetNoCursorTimeout (f : FindOptionsBuilder) : Bool → FindOptionsBuilder :=
  fun b => f.record (.SetNoCursorTimeout b)

/-- Modelled from the spec: the resolved options, as the driver computes them before
it runs the command: the recorded setters applied in order to an empty options
value. -/
def resolve (f : FindOptionsBuilder) : FindOptions :=
  f.Opts.foldl (fun o s => s.apply o) {}

end FindOptionsBuilder

/-- Modelled from the spec: the driver's constructor `options.Find()`: a builder with no
recorded setter. -/
def options.Find : FindOptionsBuilder := { Opts := [] }

/-! ## FindOneOptions -/

/-- Modelled from the spec: the driver's `options.FindOneOptions` struct, declared in the
driver package and not in this repository: every field is a pointer, an
interface value or a slice. -/
structure FindOneOptions where
  AllowPartialResults : Option Bool := none
  Collation : Option Collation := none
  Comment : Any := Any.nil
  Hint : Any := Any.nil
  Max : Any := Any.nil
  Min : Any := Any.nil
  OplogReplay : Option Bool := none
  Projection : Any := Any.nil
  ReturnKey : Option Bool := none
  ShowRecordID : Option Bool := none
  Skip : Option Int := none
  Sort_ : Any := Any.nil

/-- The fields of `options.FindOneOptions`. -/
inductive FindOneField where
  | AllowPartialResults
  | Collation
  | Comment
  | Hint
  | Max
  | Min
  | OplogReplay
  | Projection
  | ReturnKey
  | ShowRecordID
  | Skip
  | Sort_
  deriving DecidableEq, Repr

/-- Whether the Go type of the field is a pointer (`*bool`, `*int64`, `*Collation`, ...)
rather than an interface value or a slice. -/
def FindOneField.isPointer : FindOneField → Bool
  | .AllowPartialResults => true
  | .Collation => true
  | .Comment => false
  | .Hint => false
  | .Max => false
  | .Min => false
  | .OplogReplay => true
  | .Projection => false
  | .ReturnKey => true
  | .ShowRecordID => true
  | .Skip => true
  | .Sort_ => false

/-- Whether the field is non-nil in the options value. -/
def FindOneOptions.isSet (o : FindOneOptions) : FindOneField → Bool
  | .AllowPartialResults => o.AllowPartialResults.isSome
  | .Collation => o.Collation.isSome
  | .Comment => !o.Comment.isNil
  | .Hint => !o.Hint.isNil
  | .Max => !o.Max.isNil
  | .Min => !o.Min.isNil
  | .OplogReplay => o.OplogReplay.isSome
  | .Projection => !o.Projection.isNil
  | .ReturnKey => o.ReturnKey.isSome
  | .ShowRecordID => o.ShowRecordID.isSome
  | .Skip => o.Skip.isSome
  | .Sort_ => !o.Sort_.isNil

/-- Two options values hold the same value in the field. -/
def FindOneOptions.agreeOn (f : FindOneField) (a b : FindOneOptions) : Prop :=
  match f with
  | .AllowPartialResults => a.AllowPartialResults = b.AllowPartialResults
  | .Collation => a.Collation = b.Collation
  | .Comment => a.Comment = b.Comment
  | .Hint => a.Hint = b.Hint
  | .Max => a.Max = b.Max
  | .Min => a.Min = b.Min
  | .OplogReplay => a.OplogReplay = b.OplogReplay
  | .Projection => a.Projection = b.Projection
  | .ReturnKey => a.ReturnKey = b.ReturnKey
  | .ShowRecordID => a.ShowRecordID = b.ShowRecordID
  | .Skip => a.Skip = b.Skip
  | .Sort_ => a.Sort_ = b.Sort_

/-- Modelled from the spec: one recorded call of a `Set*` method of the driver's
`*options.FindOneOptionsBuilder` (declared in the driver package), with its argument. -/
inductive FindOneSetter where
  | SetAllowPartialResults (b : Bool)
  | SetCollation (c : Option Collation)
  | SetComment (comment : Any)
  | SetHint (v : Any)
  | SetMax (v : Any)
  | SetMin (v : Any)
  | SetOplogReplay (b : Bool)
  | SetProjection (v : Any)
  | SetReturnKey (b : Bool)
  | SetShowRecordID (b : Bool)
  | SetSkip (i : Int)
  | SetSort (v : Any)

/-- The field a recorded setter assigns. -/
def FindOneSetter.field : FindOneSetter → FindOneField
  | .SetAllowPartialResults _ => .AllowPartialResults
  | .SetCollation _ => .Collation
  | .SetComment _ => .Comment
  | .SetHint _ => .Hint
  | .SetMax _ => .Max
  | .SetMin _ => .Min
  | .SetOplogReplay _ => .OplogReplay
  | .SetProjection _ => .Projection
  | .SetReturnKey _ => .ReturnKey
  | .SetShowRecordID _ => .ShowRecordID
  | .SetSkip _ => .Skip
  | .SetSort _ => .Sort_

/-- Modelled from the spec: the assignment a recorded setter of the driver performs
on the options value: a scalar setter stores the address of its argument, and so
does `SetComment` (`opts.Comment = &comment`, a pointer to the interface value);
the other setters store the pointer or interface value they were given. -/
def FindOneSetter.apply (s : FindOneSetter) (o : FindOneOptions) : FindOneOptions :=
  match s with
  | .SetAllowPartialResults b => { o with AllowPartialResults := some b }
  | .SetCollation c => { o with Collation := c }
  | .SetComment comment => { o with Comment := Any.ptr comment }
  | .SetHint v => { o with Hint := v }
  | .SetMax v => { o with Max := v }
  | .SetMin v => { o with Min := v }
  | .SetOplogReplay b => { o with OplogReplay := some b }
  | .SetProjection v => { o with Projection := v }
  | .SetReturnKey b => { o with ReturnKey := some b }
  | .SetShowRecordID b => { o with ShowRecordID := some b }
  | .SetSkip i => { o with Skip := some i }
  | .SetSort v => { o with Sort_ := v }

/-- Modelled from the spec: the driver's builder `*options.FindOneOptionsBuilder` (declared in the
driver package): the setters recorded so far, oldest first. -/
structure FindOneOptionsBuilder where
  Opts : List FindOneSetter

namespace FindOneOptionsBuilder

/-- Modelled from the spec: what every `Set*` method of the driver's builder does: it
appends its setter to `Opts` and returns the builder. The methods follow. -/
def record (f : FindOneOptionsBuilder) (s : FindOneSetter) : FindOneOptionsBuilder :=
  { Opts := f.Opts ++ [s] }

abbrev SetAllowPartialResults (f : FindOneOptionsBuilder) : Bool → FindOneOptionsBuilder :=
  fun b => f.record (.SetAllowPartialResults b)

abbrev SetCollation (f : FindOneOptionsBuilder) : Option Collation → FindOneOptionsBuilder :=
  fun c => f.record (.SetCollation c)

abbrev SetComment (f : FindOneOptionsBuilder) : Any → FindOneOptionsBuilder :=
  fun comment => f.record (.SetComment comment)

abbrev SetHint (f : FindOneOptionsBuilder) : Any → FindOneOptionsBuilder :=
  fun v => f.record (.SetHint v)

abbrev SetMax (f : FindOneOptionsBuilder) : Any → FindOneOptionsBuilder :=
  fun v => f.record (.SetMax v)

abbrev SetMin (f : FindOneOptionsBuilder) : Any → FindOneOptionsBuilder :=
  fun v => f.record (.SetMin v)

abbrev SetOplogReplay (f : FindOneOptionsBuilder) : Bool → FindOneOptionsBuilder :=
  fun b => f.record (.SetOplogReplay b)

abbrev SetProjection (f : FindOneOptionsBuilder) : Any → FindOneOptionsBuilder :=
  fun v => f.record (.SetProjection v)

abbrev SetReturnKey (f : FindOneOptionsBuilder) : Bool → FindOneOptionsBuilder :=
  fun b => f.record (.SetReturnKey b)

abbrev SetShowRecordID (f : FindOneOptionsBuilder) : Bool → FindOneOptionsBuilder :=
  fun b => f.record (.SetShowRecordID b)

abbrev SetSkip (f : FindOneOptionsBuilder) : Int → FindOneOptionsBuilder :=
  fun i => f.record (.SetSkip i)

abbrev SetSort (f : FindOneOptionsBuilder) : Any → FindOneOptionsBuilder :=
  fun v => f.record (.SetSort v)

/-- Modelled from the spec: the resolved options, as the driver computes them before
it runs the command: the recorded setters applied in order to an empty options
value. -/
def resolve (f : FindOneOptionsBuilder) : FindOneOptions :=
  f.Opts.foldl (fun o s => s.apply o) {}

end FindOneOptionsBuilder

/-- Modelled from the spec: the driver's constructor `options.FindOne()`: a builder with no
recorded setter. -/
def options.FindOne : FindOneOptionsBuilder := { Opts := [] }

/-! ## UpdateOneOptions -/

/-- Modelled from the spec: the driver's `options.UpdateOneOptions` struct, declared in the
driver package and not in this repository: every field is a pointer, an
interface value or a slice. -/
structure UpdateOneOptions where
  ArrayFilters : Option (List Any) := none
  BypassDocumentValidation : Option Bool := none
  Collation : Option Collation := none
  Comment : Any := Any.nil
  Hint : Any := Any.nil
  Upsert : Option Bool := none
  Let : Any := Any.nil
  Sort_ : Any := Any.nil

/-- The fields of `options.UpdateOneOptions`. -/
inductive UpdateOneField where
  | ArrayFilters
  | BypassDocumentValidation
  | Collation
  | Comment
  | Hint
  | Upsert
  | Let
  | Sort_
  deriving DecidableEq, Repr

/-- Whether the Go type of the field is a pointer (`*bool`, `*int64`, `*Collation`, ...)
rather than an interface value or a slice. -/
def UpdateOneField.isPointer : UpdateOneField → Bool
  | .ArrayFilters => false
  | .BypassDocumentValidation => true
  | .Collation => true
  | .Comment => false
  | .Hint => false
  | .Upsert => true
  | .Let => false
  | .Sort_ => false

/-- Whether the field is non-nil in the options value. -/
def UpdateOneOptions.isSet (o : UpdateOneOptions) : UpdateOneField → Bool
  | .ArrayFilters => o.ArrayFilters.isSome
  | .BypassDocumentValidation => o.BypassDocumentValidation.isSome
  | .Collation => o.Collation.isSome
  | .Comment => !o.Comment.isNil
  | .Hint => !o.Hint.isNil
  | .Upsert => o.Upsert.isSome
  | .Let => !o.Let.isNil
  | .Sort_ => !o.Sort_.isNil

/-- Two options values hold the same value in the field. -/
def UpdateOneOptions.agreeOn (f : UpdateOneField) (a b : UpdateOneOptions) : Prop :=
  match f with
  | .ArrayFilters => a.ArrayFilters = b.ArrayFilters
  | .BypassDocumentValidation => a.BypassDocumentValidation = b.BypassDocumentValidation
  | .Collation => a.Collation = b.Collation
  | .Comment => a.Comment = b.Comment
  | .Hint => a.Hint = b.Hint
  | .Upsert => a.Upsert = b.Upsert
  | .Let => a.Let = b.Let
  | .Sort_ => a.Sort_ = b.Sort_

/-- Modelled from the spec: one recorded call of a `Set*` method of the driver's
`*options.UpdateOneOptionsBuilder` (declared in the driver package), with its argument. -/
inductive UpdateOneSetter where
  | SetArrayFilters (af : Option (List Any))
  | SetBypassDocumentValidation (b : Bool)
  | SetCollation (c : Option Collation)
  | SetComment (v : Any)
  | SetHint (v : Any)
  | SetUpsert (b : Bool)
  | SetLet (v : Any)
  | SetSort (v : Any)

/-- The field a recorded setter assigns. -/
def UpdateOneSetter.field : UpdateOneSetter → UpdateOneField
  | .SetArrayFilters _ => .ArrayFilters
  | .SetBypassDocumentValidation _ => .BypassDocumentValidation
  | .SetCollation _ => .Collation
  | .SetComment _ => .Comment
  | .SetHint _ => .Hint
  | .SetUpsert _ => .Upsert
  | .SetLet _ => .Let
  | .SetSort _ => .Sort_

/-- Modelled from the spec: the assignment a recorded setter of the driver performs
on the options value: a scalar setter stores the address of its argument, the
other setters, `SetComment` included (`opts.Comment = comment`), store the
pointer, interface value or slice they were given. -/
def UpdateOneSetter.apply (s : UpdateOneSetter) (o : UpdateOneOptions) : UpdateOneOptions :=
  match s with
  | .SetArrayFilters af => { o with ArrayFilters := af }
  | .SetBypassDocumentValidation b => { o with BypassDocumentValidation := some b }
  | .SetCollation c => { o with Collation := c }
  | .SetComment v => { o with Comment := v }
  | .SetHint v => { o with Hint := v }
  | .SetUpsert b => { o with Upsert := some b }
  | .SetLet v => { o with Let := v }
  | .SetSort v => { o with Sort_ := v }

/-- Modelled from the spec: the driver's builder `*options.UpdateOneOptionsBuilder` (declared in the
driver package): the setters recorded so far, oldest first. -/
structure UpdateOneOptionsBuilder where
  Opts : List UpdateOneSetter

namespace UpdateOneOptionsBuilder

/-- Modelled from the spec: what every `Set*` method of the driver's builder does: it
appends its setter to `Opts` and returns the builder. The methods follow. -/
def record (f : UpdateOneOptionsBuilder) (s : UpdateOneSetter) : UpdateOneOptionsBuilder :=
  { Opts := f.Opts ++ [s] }

abbrev SetArrayFilters (f : UpdateOneOptionsBuilder) : Option (List Any) → UpdateOneOptionsBuilder :=
  fun af => f.record (.SetArrayFilters af)

abbrev SetBypassDocumentValidation (f : UpdateOneOptionsBuilder) : Bool → UpdateOneOptionsBuilder :=
  fun b => f.record (.SetBypassDocumentValidation b)

abbrev SetCollation (f : UpdateOneOptionsBuilder) : Option Collation → UpdateOneOptionsBuilder :=
  fun c => f.record (.SetCollation c)

abbrev SetComment (f : UpdateOneOptionsBuilder) : Any → UpdateOneOptionsBuilder :=
  fun v => f.record (.SetComment v)

abbrev SetHint (f : UpdateOneOptionsBuilder) : Any → UpdateOneOptionsBuilder :=
  fun v => f.record (.SetHint v)

abbrev SetUpsert (f : UpdateOneOptionsBuilder) : Bool → UpdateOneOptionsBuilder :=
  fun b => f.record (.SetUpsert b)

abbrev SetLet (f : UpdateOneOptionsBuilder) : Any → UpdateOneOptionsBuilder :=
  fun v => f.record (.SetLet v)

abbrev SetSort (f : UpdateOneOptionsBuilder) : Any → UpdateOneOptionsBuilder :=
  fun v => f.record (.SetSort v)

/-- Modelled from the spec: the resolved options, as the driver computes them before
it runs the command: the recorded setters applied in order to an empty options
value. -/
def resolve (f : UpdateOneOptionsBuilder) : UpdateOneOptions :=
  f.Opts.foldl (fun o s => s.apply o) {}

end UpdateOneOptionsBuilder

/-- Modelled from the spec: the driver's constructor `options.UpdateOne()`: a builder with no
recorded setter. -/
def options.UpdateOne : UpdateOneOptionsBuilder := { Opts := [] }

/-! ## UpdateManyOptions -/

/-- Modelled from the spec: the driver's `options.UpdateManyOptions` struct, declared in the
driver package and not in this repository: every field is a pointer, an
interface value or a slice. -/
structure UpdateManyOptions where
  ArrayFilters : Option (List Any) := none
  BypassDocumentValidation : Option Bool := none
  Collation : Option Collation := none
  Comment : Any := Any.nil
  Hint : Any := Any.nil
  Upsert : Option Bool := none
  Let : Any := Any.nil

/-- The fields of `options.UpdateManyOptions`. -/
inductive UpdateManyField where
  | ArrayFilters
  | BypassDocumentValidation
  | Collation
  | Comment
  | Hint
  | Upsert
  | Let
  deriving DecidableEq, Repr

/-- Whether the Go type of the field is a pointer (`*bool`, `*int64`, `*Collation`, ...)
rather than an interface value or a slice. -/
def UpdateManyField.isPointer : UpdateManyField → Bool
  | .ArrayFilters => false
  | .BypassDocumentValidation => true
  | .Collation => true
  | .Comment => false
  | .Hint => false
  | .Upsert => true
  | .Let => false

/-- Whether the field is non-nil in the options value. -/
def UpdateManyOptions.isSet (o : UpdateManyOptions) : UpdateManyField → Bool
  | .ArrayFilters => o.ArrayFilters.isSome
  | .BypassDocumentValidation => o.BypassDocumentValidation.isSome
  | .Collation => o.Collation.isSome
  | .Comment => !o.Comment.isNil
  | .Hint => !o.Hint.isNil
  | .Upsert => o.Upsert.isSome
  | .Let => !o.Let.isNil

/-- Two options values hold the same value in the field. -/
def UpdateManyOptions.agreeOn (f : UpdateManyField) (a b : UpdateManyOptions) : Prop :=
  match f with
  | .ArrayFilters => a.ArrayFilters = b.ArrayFilters
  | .BypassDocumentValidation => a.BypassDocumentValidation = b.BypassDocumentValidation
  | .Collation => a.Collation = b.Collation
  | .Comment => a.Comment = b.Comment
  | .Hint => a.Hint = b.Hint
  | .Upsert => a.Upsert = b.Upsert
  | .Let => a.Let = b.Let

/-- Modelled from the spec: one recorded call of a `Set*` method of the driver's
`*options.UpdateManyOptionsBuilder` (declared in the driver package), with its argument. -/
inductive UpdateManySetter where
  | SetArrayFilters (af : Option (List Any))
  | SetBypassDocumentValidation (b : Bool)
  | SetCollation (c : Option Collation)
  | SetComment (v : Any)
  | SetHint (v : Any)
  | SetUpsert (b : Bool)
  | SetLet (v : Any)

/-- The field a recorded setter assigns. -/
def UpdateManySetter.field : UpdateManySetter → UpdateManyField
  | .SetArrayFilters _ => .ArrayFilters
  | .SetBypassDocumentValidation _ => .BypassDocumentValidation
  | .SetCollation _ => .Collation
  | .SetComment _ => .Comment
  | .SetHint _ => .Hint
  | .SetUpsert _ => .Upsert
  | .SetLet _ => .Let

/-- Modelled from the spec: the assignment a recorded setter of the driver performs
on the options value: a scalar setter stores the address of its argument, the
other setters, `SetComment` included (`opts.Comment = comment`), store the
pointer, interface value or slice they were given. -/
def UpdateManySetter.apply (s : UpdateManySetter) (o : UpdateManyOptions) : UpdateManyOptions :=
  match s with
  | .SetArrayFilters af => { o with ArrayFilters := af }
  | .SetBypassDocumentValidation b => { o with BypassDocumentValidation := some b }
  | .SetCollation c => { o with Collation := c }
  | .SetComment v => { o with Comment := v }
  | .SetHint v => { o with Hint := v }
  | .SetUpsert b => { o with Upsert := some b }
  | .SetLet v => { o with Let := v }

/-- Modelled from the spec: the driver's builder `*options.UpdateManyOptionsBuilder` (declared in the
driver package): the setters recorded so far, oldest first. -/
structure UpdateManyOptionsBuilder where
  Opts : List UpdateManySetter

namespace UpdateManyOptionsBuilder

/-- Modelled from the spec: what every `Set*` method of the driver's builder does: it
appends its setter to `Opts` and returns the builder. The methods follow. -/
def record (f : UpdateManyOptionsBuilder) (s : UpdateManySetter) : UpdateManyOptionsBuilder :=
  { Opts := f.Opts ++ [s] }

abbrev SetArrayFilters (f : UpdateManyOptionsBuilder) : Option (List Any) → UpdateManyOptionsBuilder :=
  fun af => f.record (.SetArrayFilters af)

abbrev SetBypassDocumentValidation (f : UpdateManyOptionsBuilder) : Bool → UpdateManyOptionsBuilder :=
  fun b => f.record (.SetBypassDocumentValidation b)

abbrev SetCollation (f : UpdateManyOptionsBuilder) : Option Collation → UpdateManyOptionsBuilder :=
  fun c => f.record (.SetCollation c)

abbrev SetComment (f : UpdateManyOptionsBuilder) : Any → UpdateManyOptionsBuilder :=
  fun v => f.record (.SetComment v)

abbrev SetHint (f : UpdateManyOptionsBuilder) : Any → UpdateManyOptionsBuilder :=
  fun v => f.record (.SetHint v)

abbrev SetUpsert (f : UpdateManyOptionsBuilder) : Bool → UpdateManyOptionsBuilder :=
  fun b => f.record (.SetUpsert b)

abbrev SetLet (f : UpdateManyOptionsBuilder) : Any → UpdateManyOptionsBuilder :=
  fun v => f.record (.SetLet v)

/-- Modelled from the spec: the resolved options, as the driver computes them before
it runs the command: the recorded setters applied in order to an empty options
value. -/
def resolve (f : UpdateManyOptionsBuilder) : UpdateManyOptions :=
  f.Opts.foldl (fun o s => s.apply o) {}

end UpdateManyOptionsBuilder

/-- Modelled from the spec: the driver's constructor `options.UpdateMany()`: a builder with no
recorded setter. -/
def options.UpdateMany : UpdateManyOptionsBuilder := { Opts := [] }

/-! ## DatabaseOptions -/

/-- Modelled from the spec: the five driver types a `options.DatabaseOptions`
points to (`options.BSONOptions`, `readconcern.ReadConcern`, `readpref.ReadPref`,
`bson.Registry`, `writeconcern.WriteConcern`), declared in the driver packages
and not in this repository. The translator never looks inside them, so they
are left abstract. -/
structure DriverTypes where
  BSONOptions : Type
  ReadConcern : Type
  ReadPref : Type
  Registry : Type
  WriteConcern : Type

/-- Modelled from the spec: the driver's `options.DatabaseOptions` struct, declared in
the driver package and not in this repository: five pointers. -/
structure DatabaseOptions (D : DriverTypes) where
  ReadConcern : Option D.ReadConcern := none
  WriteConcern : Option D.WriteConcern := none
  ReadPreference : Option D.ReadPref := none
  BSONOptions : Option D.BSONOptions := none
  Registry : Option D.Registry := none

/-- The fields of `options.DatabaseOptions`. -/
inductive DatabaseField where
  | ReadConcern
  | WriteConcern
  | ReadPreference
  | BSONOptions
  | Registry
  deriving DecidableEq, Repr

/-- Whether the field is non-nil in the options value. -/
def DatabaseOptions.isSet {D : DriverTypes} (o : DatabaseOptions D) : DatabaseField → Bool
  | .ReadConcern => o.ReadConcern.isSome
  | .WriteConcern => o.WriteConcern.isSome
  | .ReadPreference => o.ReadPreference.isSome
  | .BSONOptions => o.BSONOptions.isSome
  | .Registry => o.Registry.isSome

/-- Two options values hold the same value in the field. -/
def DatabaseOptions.agreeOn {D : DriverTypes} (f : DatabaseField) (a b : DatabaseOptions D) :
    Prop :=
  match f with
  | .ReadConcern => a.ReadConcern = b.ReadConcern
  | .WriteConcern => a.WriteConcern = b.WriteConcern
  | .ReadPreference => a.ReadPreference = b.ReadPreference
  | .BSONOptions => a.BSONOptions = b.BSONOptions
  | .Registry => a.Registry = b.Registry

/-- Modelled from the spec: one recorded call of a `Set*` method of the driver's
`*options.DatabaseOptionsBuilder` (declared in the driver package), with its
argument, a pointer. -/
inductive DatabaseSetter (D : DriverTypes) where
  | SetReadConcern (rc : Option D.ReadConcern)
  | SetWriteConcern (wc : Option D.WriteConcern)
  | SetReadPreference (rp : Option D.ReadPref)
  | SetBSONOptions (bopts : Option D.BSONOptions)
  | SetRegistry (r : Option D.Registry)

/-- The field a recorded setter assigns. -/
def DatabaseSetter.field {D : DriverTypes} : DatabaseSetter D → DatabaseField
  | .SetReadConcern _ => .ReadConcern
  | .SetWriteConcern _ => .WriteConcern
  | .SetReadPreference _ => .ReadPreference
  | .SetBSONOptions _ => .BSONOptions
  | .SetRegistry _ => .Registry

/-- Modelled from the spec: the assignment a recorded setter of the driver performs
on the options value: it stores the pointer it was given. -/
def DatabaseSetter.apply {D : DriverTypes} (s : DatabaseSetter D) (o : DatabaseOptions D) :
    DatabaseOptions D :=
  match s with
  | .SetReadConcern rc => { o with ReadConcern := rc }
  | .SetWriteConcern wc => { o with WriteConcern := wc }
  | .SetReadPreference rp => { o with ReadPreference := rp }
  | .SetBSONOptions bopts => { o with BSONOptions := bopts }
  | .SetRegistry r => { o with Registry := r }

/-- Modelled from the spec: the driver's builder `*options.DatabaseOptionsBuilder`
(declared in the driver package): the setters recorded so far, oldest first. -/
structure DatabaseOptionsBuilder (D : DriverTypes) where
  Opts : List (DatabaseSetter D)

namespace DatabaseOptionsBuilder

variable {D : DriverTypes}

/-- Modelled from the spec: what every `Set*` method of the driver's builder does: it
appends its setter to `Opts` and returns the builder. The methods follow. -/
def record (d : DatabaseOptionsBuilder D) (s : DatabaseSetter D) : DatabaseOptionsBuilder D :=
  { Opts := d.Opts ++ [s] }

abbrev SetReadConcern (d : DatabaseOptionsBuilder D) :
    Option D.ReadConcern → DatabaseOptionsBuilder D :=
  fun rc => d.record (.SetReadConcern rc)

abbrev SetWriteConcern (d : DatabaseOptionsBuilder D) :
    Option D.WriteConcern → DatabaseOptionsBuilder D :=
  fun wc => d.record (.SetWriteConcern wc)

abbrev SetReadPreference (d : DatabaseOptionsBuilder D) :
    Option D.ReadPref → DatabaseOptionsBuilder D :=
  fun rp => d.record (.SetReadPreference rp)

abbrev SetBSONOptions (d : DatabaseOptionsBuilder D) :
    Option D.BSONOptions → DatabaseOptionsBuilder D :=
  fun bopts => d.record (.SetBSONOptions bopts)

abbrev SetRegistry (d : DatabaseOptionsBuilder D) :
    Option D.Registry → DatabaseOptionsBuilder D :=
  fun r => d.record (.SetRegistry r)

/-- Modelled from the spec: the resolved options, as the driver computes them before
it runs the command: the recorded setters applied in order to an empty options
value. -/
def resolve (d : DatabaseOptionsBuilder D) : DatabaseOptions D :=
  d.Opts.foldl (fun o s => s.apply o) {}

end DatabaseOptionsBuilder

/-- Modelled from the spec: the driver's constructor `options.Database()`: a builder
with no recorded setter. -/
def options.Database {D : DriverTypes} : DatabaseOptionsBuilder D := { Opts := [] }

/-! ## The translators of `options_builder.go` -/

/-- Translator `BuildDatabaseOptions(opts *options.DatabaseOptions)`; reading a field
of a nil `opts` panics. -/
def BuildDatabaseOptions {D : DriverTypes} (opts : Option (DatabaseOptions D)) :
    Option (DatabaseOptionsBuilder D) :=
  let dbOpts : DatabaseOptionsBuilder D := options.Database
  match opts with
  | none => none
  | some opts =>
    let dbOpts := if opts.BSONOptions.isSome then dbOpts.SetBSONOptions opts.BSONOptions else dbOpts
    let dbOpts := if opts.ReadConcern.isSome then dbOpts.SetReadConcern opts.ReadConcern else dbOpts
    let dbOpts :=
      if opts.ReadPreference.isSome then dbOpts.SetReadPreference opts.ReadPreference else dbOpts
    let dbOpts := if opts.Registry.isSome then dbOpts.SetRegistry opts.Registry else dbOpts
    let dbOpts := if opts.WriteConcern.isSome then dbOpts.SetWriteConcern opts.WriteConcern else dbOpts
    some dbOpts

/-- Translator `BuildFindManyOptions(opts ...*options.FindOptions)`: only `opts[0]` is
read; `&opts.Sort` and the other addresses of fields are never nil. -/
def BuildFindManyOptions (opts : List (Option FindOptions)) : Option FindOptionsBuilder :=
  let findOpts := options.Find
  match opts with
  | [] => some findOpts
  | first :: _ =>
    match first with
    | none => none
    | some opts =>
      let findOpts := setOption findOpts opts.AllowDiskUse findOpts.SetAllowDiskUse
      let findOpts := setOption findOpts opts.AllowPartialResults findOpts.SetAllowPartialResults
      let findOpts := setOption findOpts opts.BatchSize findOpts.SetBatchSize
      let findOpts := setOption findOpts opts.Limit findOpts.SetLimit
      let findOpts := setOption findOpts opts.Skip findOpts.SetSkip
      let findOpts := setOption findOpts opts.MaxAwaitTime findOpts.SetMaxAwaitTime
      let findOpts := setOption findOpts opts.NoCursorTimeout findOpts.SetNoCursorTimeout
      let findOpts := setOption findOpts (some opts.Sort_) findOpts.SetSort
      let findOpts := setOption findOpts (some opts.Comment) findOpts.SetComment
      let findOpts := setOption findOpts (some opts.Hint) findOpts.SetHint
      let findOpts := setOption findOpts (some opts.Let) findOpts.SetLet
      let findOpts := setOption findOpts (some opts.Max) findOpts.SetMax
      let findOpts := setOption findOpts (some opts.Min) findOpts.SetMin
      let findOpts := setOption findOpts (some opts.Projection) findOpts.SetProjection
      let findOpts := setOption findOpts opts.ReturnKey findOpts.SetReturnKey
      let findOpts :=
        if opts.Collation.isSome then findOpts.SetCollation opts.Collation else findOpts
      let findOpts :=
        match opts.CursorType with
        | some ct => findOpts.SetCursorType ct
        | none => findOpts
      some findOpts

/-- Translator `BuildFindOneOptions(opts ...*options.FindOneOptions)`. -/
def BuildFindOneOptions (opts : List (Option FindOneOptions)) : Option FindOneOptionsBuilder :=
  let findOneOpts := options.FindOne
  match opts with
  | [] => some findOneOpts
  | first :: _ =>
    match first with
    | none => none
    | some opts =>
      let findOneOpts :=
        setOption findOneOpts opts.AllowPartialResults findOneOpts.SetAllowPartialResults
      let findOneOpts := setOption findOneOpts opts.Skip findOneOpts.SetSkip
      let findOneOpts := setOption findOneOpts (some opts.Sort_) findOneOpts.SetSort
      let findOneOpts := setOption findOneOpts (some opts.Comment) findOneOpts.SetComment
      let findOneOpts := setOption findOneOpts (some opts.Hint) findOneOpts.SetHint
      let findOneOpts := setOption findOneOpts (some opts.Max) findOneOpts.SetMax
      let findOneOpts := setOption findOneOpts (some opts.Min) findOneOpts.SetMin
      let findOneOpts := setOption findOneOpts (some opts.Projection) findOneOpts.SetProjection
      let findOneOpts := setOption findOneOpts opts.ReturnKey findOneOpts.SetReturnKey
      let findOneOpts :=
        if opts.Collation.isSome then findOneOpts.SetCollation opts.Collation else findOneOpts
      some findOneOpts

/-- Translator `BuildUpdateOneOptions(opts ...*options.UpdateOneOptions)`. -/
def BuildUpdateOneOptions (opts : List (Option UpdateOneOptions)) :
    Option UpdateOneOptionsBuilder :=
  let updateOneOpts := options.UpdateOne
  match opts with
  | [] => some updateOneOpts
  | first :: _ =>
    match first with
    | none => none
    | some opts =>
      let updateOneOpts :=
        setOption updateOneOpts (some opts.ArrayFilters) updateOneOpts.SetArrayFilters
      let updateOneOpts :=
        setOption updateOneOpts opts.BypassDocumentValidation
          updateOneOpts.SetBypassDocumentValidation
      let updateOneOpts := setOption updateOneOpts (some opts.Sort_) updateOneOpts.SetSort
      let updateOneOpts := setOption updateOneOpts (some opts.Comment) updateOneOpts.SetComment
      let updateOneOpts := setOption updateOneOpts (some opts.Hint) updateOneOpts.SetHint
      let updateOneOpts := setOption updateOneOpts (some opts.Let) updateOneOpts.SetLet
      let updateOneOpts := setOption updateOneOpts opts.Upsert updateOneOpts.SetUpsert
      let updateOneOpts :=
        if opts.Collation.isSome then updateOneOpts.SetCollation opts.Collation
        else updateOneOpts
      some updateOneOpts

/-- Translator `BuildUpdateManyOptions(opts ...*options.UpdateManyOptions)`. -/
def BuildUpdateManyOptions (opts : List (Option UpdateManyOptions)) :
    Option UpdateManyOptionsBuilder :=
  let updateManyOpts := options.UpdateMany
  match opts with
  | [] => some updateManyOpts
  | first :: _ =>
    match first with
    | none => none
    | some opts =>
      let updateManyOpts :=
        setOption updateManyOpts (some opts.ArrayFilters) updateManyOpts.SetArrayFilters
      let updateManyOpts :=
        setOption updateManyOpts opts.BypassDocumentValidation
          updateManyOpts.SetBypassDocumentValidation
      let updateManyOpts := setOption updateManyOpts (some opts.Comment) updateManyOpts.SetComment
      let updateManyOpts := setOption updateManyOpts (some opts.Hint) updateManyOpts.SetHint
      let updateManyOpts := setOption updateManyOpts (some opts.Let) updateManyOpts.SetLet
      let updateManyOpts := setOption updateManyOpts opts.Upsert updateManyOpts.SetUpsert
      let updateManyOpts :=
        if opts.Collation.isSome then updateManyOpts.SetCollation opts.Collation
        else updateManyOpts
      some updateManyOpts

/-! ## Recorded setters and forwarded fields -/

/-- The fields `BuildFindManyOptions` forwards, in the order of its statements. -/
def BuildFindManyOptions.order : List FindField :=
  [.AllowDiskUse, .AllowPartialResults, .BatchSize, .Limit, .Skip, .MaxAwaitTime, .NoCursorTimeout, .Sort_, .Comment, .Hint, .Let, .Max, .Min, .Projection, .ReturnKey, .Collation, .CursorType]

/-- The fields `BuildFindOneOptions` forwards, in the order of its statements. -/
def BuildFindOneOptions.order : List FindOneField :=
  [.AllowPartialResults, .Skip, .Sort_, .Comment, .Hint, .Max, .Min, .Projection, .ReturnKey, .Collation]

/-- The fields `BuildUpdateOneOptions` forwards, in the order of its statements. -/
def BuildUpdateOneOptions.order : List UpdateOneField :=
  [.ArrayFilters, .BypassDocumentValidation, .Sort_, .Comment, .Hint, .Let, .Upsert, .Collation]

/-- The fields `BuildUpdateManyOptions` forwards, in the order of its statements. -/
def BuildUpdateManyOptions.order : List UpdateManyField :=
  [.ArrayFilters, .BypassDocumentValidation, .Comment, .Hint, .Let, .Upsert, .Collation]
/-- The setters recorded by `BuildFindManyOptions` for a non-nil first configuration, in
source order: one for each non-nil pointer field and one for each field held by
value (see `BuildFindManyOptions_cons`). -/
def BuildFindManyOptions.recorded (c : FindOptions) : List FindSetter :=
  (Option.map FindSetter.SetAllowDiskUse c.AllowDiskUse).toList ++
  (Option.map FindSetter.SetAllowPartialResults c.AllowPartialResults).toList ++
  (Option.map FindSetter.SetBatchSize c.BatchSize).toList ++
  (Option.map FindSetter.SetLimit c.Limit).toList ++
  (Option.map FindSetter.SetSkip c.Skip).toList ++
  (Option.map FindSetter.SetMaxAwaitTime c.MaxAwaitTime).toList ++
  (Option.map FindSetter.SetNoCursorTimeout c.NoCursorTimeout).toList ++
  [FindSetter.SetSort c.Sort_] ++
  [FindSetter.SetComment c.Comment] ++
  [FindSetter.SetHint c.Hint] ++
  [FindSetter.SetLet c.Let] ++
  [FindSetter.SetMax c.Max] ++
  [FindSetter.SetMin c.Min] ++
  [FindSetter.SetProjection c.Projection] ++
  (Option.map FindSetter.SetReturnKey c.ReturnKey).toList ++
  (Option.map (fun x => FindSetter.SetCollation (some x)) c.Collation).toList ++
  (Option.map FindSetter.SetCursorType c.CursorType).toList

/-- The setters recorded by `BuildFindOneOptions` for a non-nil first configuration, in
source order: one for each non-nil pointer field and one for each field held by
value (see `BuildFindOneOptions_cons`). -/
def BuildFindOneOptions.recorded (c : FindOneOptions) : List FindOneSetter :=
  (Option.map FindOneSetter.SetAllowPartialResults c.AllowPartialResults).toList ++
  (Option.map FindOneSetter.SetSkip c.Skip).toList ++
  [FindOneSetter.SetSort c.Sort_] ++
  [FindOneSetter.SetComment c.Comment] ++
  [FindOneSetter.SetHint c.Hint] ++
  [FindOneSetter.SetMax c.Max] ++
  [FindOneSetter.SetMin c.Min] ++
  [FindOneSetter.SetProjection c.Projection] ++
  (Option.map FindOneSetter.SetReturnKey c.ReturnKey).toList ++
  (Option.map (fun x => FindOneSetter.SetCollation (some x)) c.Collation).toList

/-- The setters recorded by `BuildUpdateOneOptions` for a non-nil first configuration, in
source order: one for each non-nil pointer field and one for each field held by
value (see `BuildUpdateOneOptions_cons`). -/
def BuildUpdateOneOptions.recorded (c : UpdateOneOptions) : List UpdateOneSetter :=
  [UpdateOneSetter.SetArrayFilters c.ArrayFilters] ++
  (Option.map UpdateOneSetter.SetBypassDocumentValidation c.BypassDocumentValidation).toList ++
  [UpdateOneSetter.SetSort c.Sort_] ++
  [UpdateOneSetter.SetComment c.Comment] ++
  [UpdateOneSetter.SetHint c.Hint] ++
  [UpdateOneSetter.SetLet c.Let] ++
  (Option.map UpdateOneSetter.SetUpsert c.Upsert).toList ++
  (Option.map (fun x => UpdateOneSetter.SetCollation (some x)) c.Collation).toList

/-- The setters recorded by `BuildUpdateManyOptions` for a non-nil first configuration, in
source order: one for each non-nil pointer field and one for each field held by
value (see `BuildUpdateManyOptions_cons`). -/
def BuildUpdateManyOptions.recorded (c : UpdateManyOptions) : List UpdateManySetter :=
  [UpdateManySetter.SetArrayFilters c.ArrayFilters] ++
  (Option.map UpdateManySetter.SetBypassDocumentValidation c.BypassDocumentValidation).toList ++
  [UpdateManySetter.SetComment c.Comment] ++
  [UpdateManySetter.SetHint c.Hint] ++
  [UpdateManySetter.SetLet c.Let] ++
  (Option.map UpdateManySetter.SetUpsert c.Upsert).toList ++
  (Option.map (fun x => UpdateManySetter.SetCollation (some x)) c.Collation).toList
/-- The fields `BuildDatabaseOptions` forwards, in the order of its statements. -/
def BuildDatabaseOptions.order : List DatabaseField :=
  [.BSONOptions, .ReadConcern, .ReadPreference, .Registry, .WriteConcern]

/-- The setters recorded by `BuildDatabaseOptions` for a non-nil configuration, in
source order: one for each non-nil pointer, carrying that pointer. -/
def BuildDatabaseOptions.recorded {D : DriverTypes} (c : DatabaseOptions D) :
    List (DatabaseSetter D) :=
  (if c.BSONOptions.isSome then [DatabaseSetter.SetBSONOptions c.BSONOptions] else []) ++
  (if c.ReadConcern.isSome then [DatabaseSetter.SetReadConcern c.ReadConcern] else []) ++
  (if c.ReadPreference.isSome then [DatabaseSetter.SetReadPreference c.ReadPreference] else []) ++
  (if c.Registry.isSome then [DatabaseSetter.SetRegistry c.Registry] else []) ++
  (if c.WriteConcern.isSome then [DatabaseSetter.SetWriteConcern c.WriteConcern] else [])

/-! ## The generic repository

The repository file (`model.go`, with `New`, `Create`, `FindOne`, ...) is not
among the sources; only its test is. The operations below are modelled from the
specification of the repository. Transport, cancellation and document
(de)serialization belong to external collaborators and are outside the model:
every call reaches the engine and a stored document is the record itself. -/

/-- Modelled from the spec: the error taxonomy of the repository operations, which
the missing `model.go` surfaces to its callers. -/
inductive RepoError where
  | ConnectionError
  | WriteError
  | NotFound
  | DecodeError
  | TransportError
  deriving DecidableEq, Repr

/-- Modelled from the spec: what the missing `model.go` and the storage engine
know of a record type `W` with identities in `I`: the designated identity field
of a record (`none` when the record carries no identity) and, for a record
without identity, the identity the engine generates on create and the document
stored under it. -/
structure Store (W I : Type) where
  identity : W → Option I
  generate : List W → I
  assign : W → I → W

/-- Modelled from the spec: `Create(record W) -> error` of the missing `model.go`:
inserts one document and fails with `WriteError` on a duplicate identity. A
collection is the list of its documents in natural (insertion) order; the
result holds the collection after the call. -/
def Model.Create {W I : Type} [DecidableEq I] (S : Store W I) (coll : List W) (record : W) :
    Except RepoError (List W) :=
  match S.identity record with
  | some i =>
    if coll.any (fun d => decide (S.identity d = some i)) then Except.error RepoError.WriteError
    else Except.ok (coll ++ [record])
  | none => Except.ok (coll ++ [S.assign record (S.generate coll)])

/-- Modelled from the spec: `FindOne(filter) -> (R, error)` of the missing
`model.go`, called without configuration: returns the first document matching
the filter and fails with `NotFound` when no document matches. A filter is a
predicate selecting documents. -/
def Model.FindOne {W : Type} (coll : List W) (filter : W → Bool) : Except RepoError W :=
  match coll.find? filter with
  | some d => Except.ok d
  | none => Except.error RepoError.NotFound

/-- Modelled from the spec: the record type of the test (`testUser`), reduced to its
identity `ID` and its `Name`; the empty `ID` stands for no identity
(`omitempty`), and the engine is taken to generate the identity `"generated"`
followed by the number of stored documents. -/
def testUserStore : Store (String × String) String where
  identity := fun u => if u.1 = "" then none else some u.1
  generate := fun coll => "generated" ++ toString coll.length
  assign := fun u i => (i, u.2)

/-- Modelled from the spec: a filter given as a mapping, one condition for each entry
(a field path and the value or operator the field is compared with): a document
is selected when it meets every entry, so the mapping with no entry
(`map[string]any{}` in the test) selects every document. -/
def Model.filterOf {W : Type} (entries : List (String × (W → Bool))) : W → Bool :=
  fun d => entries.all (fun e => e.2 d)

/-- Modelled from the spec: `DeleteMany(filter) -> error` of the missing `model.go`:
removes every document matching the filter; deleting zero documents is success.
The result holds the collection after the call. -/
def Model.DeleteMany {W : Type} (coll : List W) (filter : W → Bool) :
    Except RepoError (List W) :=
  Except.ok (coll.filter (fun d => !filter d))

/-- Modelled from the spec: `FindMany(filter) -> (sequence of R, error)` of the
missing `model.go`, called without configuration: returns all matching documents
in natural order; the empty sequence, not an error, when nothing matches. -/
def Model.FindMany {W : Type} (coll : List W) (filter : W → Bool) :
    Except RepoError (List W) :=
  Except.ok (coll.filter filter)

/-! ## Names of the driver methods -/

/-- The name of the driver method a recorded update-one setter stands for. -/
def UpdateOneSetter.method : UpdateOneSetter → String
  | .SetArrayFilters _ => "SetArrayFilters"
  | .SetBypassDocumentValidation _ => "SetBypassDocumentValidation"
  | .SetCollation _ => "SetCollation"
  | .SetComment _ => "SetComment"
  | .SetHint _ => "SetHint"
  | .SetUpsert _ => "SetUpsert"
  | .SetLet _ => "SetLet"
  | .SetSort _ => "SetSort"

/-- The name of the driver method a recorded update-many setter stands for. -/
def UpdateManySetter.method : UpdateManySetter → String
  | .SetArrayFilters _ => "SetArrayFilters"
  | .SetBypassDocumentValidation _ => "SetBypassDocumentValidation"
  | .SetCollation _ => "SetCollation"
  | .SetComment _ => "SetComment"
  | .SetHint _ => "SetHint"
  | .SetUpsert _ => "SetUpsert"
  | .SetLet _ => "SetLet"

/-! ## Vocabulary of the statements -/

/-- The configuration `withField (some zero)`, holding the zero value in one
pointer field, and the configuration `withField none`, with that field absent,
are both translated, and the resolved options differ: the field is present with
the zero value in the first and unset in the second. -/
def AbsentZeroDistinguished {C B O V : Type} (build : List (Option C) → Option B)
    (resolve : B → O) (get : O → Option V) (withField : Option V → C) (zero : V) : Prop :=
  ∀ rest : List (Option C), ∃ bz ba,
    build (some (withField (some zero)) :: rest) = some bz ∧
    build (some (withField none) :: rest) = some ba ∧
    get (resolve bz) = some zero ∧ get (resolve ba) = none ∧ resolve bz ≠ resolve ba

/-! ## Helper lemmas -/

/-- Folding setters that commute whenever they assign different fields gives the
same result for every reordering of a list that assigns no field twice. -/
theorem foldl_perm_of_nodup_fields {σ ω φ : Type} (ap : σ → ω → ω) (field : σ → φ)
    (comm : ∀ s t : σ, field s ≠ field t → ∀ o, ap t (ap s o) = ap s (ap t o))
    {l₁ l₂ : List σ} (p : l₁.Perm l₂) (nd : (l₁.map field).Nodup) (init : ω) :
    List.foldl (fun o s => ap s o) init l₁ = List.foldl (fun o s => ap s o) init l₂ := by
  refine List.Perm.foldl_eq' p ?_ init
  intro x hx y hy z
  by_cases hxy : x = y
  · subst hxy; rfl
  · have hne : field x ≠ field y := fun h => hxy (List.inj_on_of_nodup_map nd hx hy h)
    exact comm x y hne z

/-- Two values differ when an optional component is present in one and absent in
the other. -/
theorem ne_of_some_of_none {O V : Type} (get : O → Option V) {a b : O} {z : V}
    (ha : get a = some z) (hb : get b = none) : a ≠ b := by
  intro h
  rw [h, hb] at ha
  exact Option.noConfusion ha

/-! ### Helper lemmas: `BuildFindManyOptions` -/

theorem FindOptionsBuilder_setOption_record {V : Type} (b : FindOptionsBuilder) (o : Option V)
    (S : V → FindSetter) :
    setOption b o (fun v => b.record (S v)) = ⟨b.Opts ++ (Option.map S o).toList⟩ := by
  cases o <;> simp [setOption, FindOptionsBuilder.record]

theorem BuildFindManyOptions_cons (c : FindOptions) (rest : List (Option FindOptions)) :
    BuildFindManyOptions (some c :: rest) = some ⟨BuildFindManyOptions.recorded c⟩ := by
  have hc : ∀ (b : FindOptionsBuilder), (if c.Collation.isSome then b.SetCollation c.Collation else b) =
      ⟨b.Opts ++ (Option.map (fun x => FindSetter.SetCollation (some x)) c.Collation).toList⟩ := by
    intro b; cases c.Collation <;> simp [FindOptionsBuilder.record]
  have ht : ∀ (b : FindOptionsBuilder), (match c.CursorType with | some ct => b.SetCursorType ct | none => b) =
      ⟨b.Opts ++ (Option.map FindSetter.SetCursorType c.CursorType).toList⟩ := by
    intro b; cases c.CursorType <;> simp [FindOptionsBuilder.record]
  simp only [BuildFindManyOptions, BuildFindManyOptions.recorded, options.Find, hc, ht, FindOptionsBuilder_setOption_record,
    Option.map_some', Option.toList, List.append_assoc, List.nil_append, List.cons_append,
    List.singleton_append]

theorem FindSetter_foldl_SetAllowDiskUse (o : Option Bool) (r : FindOptions) :
    List.foldl (fun o s => FindSetter.apply s o) r (Option.map FindSetter.SetAllowDiskUse o).toList =
      { r with AllowDiskUse := o.or r.AllowDiskUse } := by
  cases o <;> rfl

theorem FindSetter_foldl_SetAllowPartialResults (o : Option Bool) (r : FindOptions) :
    List.foldl (fun o s => FindSetter.apply s o) r (Option.map FindSetter.SetAllowPartialResults o).toList =
      { r with AllowPartialResults := o.or r.AllowPartialResults } := by
  cases o <;> rfl

theorem FindSetter_foldl_SetBatchSize (o : Option Int) (r : FindOptions) :
    List.foldl (fun o s => FindSetter.apply s o) r (Option.map FindSetter.SetBatchSize o).toList =
      { r with BatchSize := o.or r.BatchSize } := by
  cases o <;> rfl

theorem FindSetter_foldl_SetLimit (o : Option Int) (r : FindOptions) :
    List.foldl (fun o s => FindSetter.apply s o) r (Option.map FindSetter.SetLimit o).toList =
      { r with Limit := o.or r.Limit } := by
  cases o <;> rfl

theorem FindSetter_foldl_SetSkip (o : Option Int) (r : FindOptions) :
    List.foldl (fun o s => FindSetter.apply s o) r (Option.map FindSetter.SetSkip o).toList =
      { r with Skip := o.or r.Skip } := by
  cases o <;> rfl

theorem FindSetter_foldl_SetMaxAwaitTime (o : Option Int) (r : FindOptions) :
    List.foldl (fun o s => FindSetter.apply s o) r (Option.map FindSetter.SetMaxAwaitTime o).toList =
      { r with MaxAwaitTime := o.or r.MaxAwaitTime } := by
  cases o <;> rfl

theorem FindSetter_foldl_SetNoCursorTimeout (o : Option Bool) (r : FindOptions) :
    List.foldl (fun o s => FindSetter.apply s o) r (Option.map FindSetter.SetNoCursorTimeout o).toList =
      { r with NoCursorTimeout := o.or r.NoCursorTimeout } := by
  cases o <;> rfl

theorem FindSetter_foldl_SetReturnKey (o : Option Bool) (r : FindOptions) :
    List.foldl (fun o s => FindSetter.apply s o) r (Option.map FindSetter.SetReturnKey o).toList =
      { r with ReturnKey := o.or r.ReturnKey } := by
  cases o <;> rfl

theorem FindSetter_foldl_SetCollation (o : Option Collation) (r : FindOptions) :
    List.foldl (fun o s => FindSetter.apply s o) r
        (Option.map (fun x => FindSetter.SetCollation (some x)) o).toList =
      { r with Collation := o.or r.Collation } := by
  cases o <;> rfl

theorem FindSetter_foldl_SetCursorType (o : Option Int) (r : FindOptions) :
    List.foldl (fun o s => FindSetter.apply s o) r (Option.map FindSetter.SetCursorType o).toList =
      { r with CursorType := o.or r.CursorType } := by
  cases o <;> rfl

theorem BuildFindManyOptions_resolve_recorded (c : FindOptions) :
    FindOptionsBuilder.resolve ⟨BuildFindManyOptions.recorded c⟩ =
      { c with OplogReplay := none, ShowRecordID := none, Comment := Any.ptr c.Comment } := by
  simp only [FindOptionsBuilder.resolve, BuildFindManyOptions.recorded, List.foldl_append, List.foldl_cons,
    List.foldl_nil, FindSetter_foldl_SetAllowDiskUse, FindSetter_foldl_SetAllowPartialResults, FindSetter_foldl_SetBatchSize, FindSetter_foldl_SetLimit, FindSetter_foldl_SetSkip, FindSetter_foldl_SetMaxAwaitTime, FindSetter_foldl_SetNoCursorTimeout, FindSetter_foldl_SetReturnKey, FindSetter_foldl_SetCollation, FindSetter_foldl_SetCursorType]
  simp only [FindSetter.apply, Option.or_none]

/-! ### Helper lemmas: `BuildFindOneOptions` -/

theorem FindOneOptionsBuilder_setOption_record {V : Type} (b : FindOneOptionsBuilder) (o : Option V)
    (S : V → FindOneSetter) :
    setOption b o (fun v => b.record (S v)) = ⟨b.Opts ++ (Option.map S o).toList⟩ := by
  cases o <;> simp [setOption, FindOneOptionsBuilder.record]

theorem BuildFindOneOptions_cons (c : FindOneOptions) (rest : List (Option FindOneOptions)) :
    BuildFindOneOptions (some c :: rest) = some ⟨BuildFindOneOptions.recorded c⟩ := by
  have hc : ∀ (b : FindOneOptionsBuilder), (if c.Collation.isSome then b.SetCollation c.Collation else b) =
      ⟨b.Opts ++ (Option.map (fun x => FindOneSetter.SetCollation (some x)) c.Collation).toList⟩ := by
    intro b; cases c.Collation <;> simp [FindOneOptionsBuilder.record]
  simp only [BuildFindOneOptions, BuildFindOneOptions.recorded, options.FindOne, hc, FindOneOptionsBuilder_setOption_record,
    Option.map_some', Option.toList, List.append_assoc, List.nil_append, List.cons_append,
    List.singleton_append]

theorem FindOneSetter_foldl_SetAllowPartialResults (o : Option Bool) (r : FindOneOptions) :
    List.foldl (fun o s => FindOneSetter.apply s o) r (Option.map FindOneSetter.SetAllowPartialResults o).toList =
      { r with AllowPartialResults := o.or r.AllowPartialResults } := by
  cases o <;> rfl

theorem FindOneSetter_foldl_SetSkip (o : Option Int) (r : FindOneOptions) :
    List.foldl (fun o s => FindOneSetter.apply s o) r (Option.map FindOneSetter.SetSkip o).toList =
      { r with Skip := o.or r.Skip } := by
  cases o <;> rfl

theorem FindOneSetter_foldl_SetReturnKey (o : Option Bool) (r : FindOneOptions) :
    List.foldl (fun o s => FindOneSetter.apply s o) r (Option.map FindOneSetter.SetReturnKey o).toList =
      { r with ReturnKey := o.or r.ReturnKey } := by
  cases o <;> rfl

theorem FindOneSetter_foldl_SetCollation (o : Option Collation) (r : FindOneOptions) :
    List.foldl (fun o s => FindOneSetter.apply s o) r
        (Option.map (fun x => FindOneSetter.SetCollation (some x)) o).toList =
      { r with Collation := o.or r.Collation } := by
  cases o <;> rfl

theorem BuildFindOneOptions_resolve_recorded (c : FindOneOptions) :
    FindOneOptionsBuilder.resolve ⟨BuildFindOneOptions.recorded c⟩ =
      { c with OplogReplay := none, ShowRecordID := none, Comment := Any.ptr c.Comment } := by
  simp only [FindOneOptionsBuilder.resolve, BuildFindOneOptions.recorded, List.foldl_append, List.foldl_cons,
    List.foldl_nil, FindOneSetter_foldl_SetAllowPartialResults, FindOneSetter_foldl_SetSkip, FindOneSetter_foldl_SetReturnKey, FindOneSetter_foldl_SetCollation]
  simp only [FindOneSetter.apply, Option.or_none]

/-! ### Helper lemmas: `BuildUpdateOneOptions` -/

theorem UpdateOneOptionsBuilder_setOption_record {V : Type} (b : UpdateOneOptionsBuilder) (o : Option V)
    (S : V → UpdateOneSetter) :
    setOption b o (fun v => b.record (S v)) = ⟨b.Opts ++ (Option.map S o).toList⟩ := by
  cases o <;> simp [setOption, UpdateOneOptionsBuilder.record]

theorem BuildUpdateOneOptions_cons (c : UpdateOneOptions) (rest : List (Option UpdateOneOptions)) :
    BuildUpdateOneOptions (some c :: rest) = some ⟨BuildUpdateOneOptions.recorded c⟩ := by
  have hc : ∀ (b : UpdateOneOptionsBuilder), (if c.Collation.isSome then b.SetCollation c.Collation else b) =
      ⟨b.Opts ++ (Option.map (fun x => UpdateOneSetter.SetCollation (some x)) c.Collation).toList⟩ := by
    intro b; cases c.Collation <;> simp [UpdateOneOptionsBuilder.record]
  simp only [BuildUpdateOneOptions, BuildUpdateOneOptions.recorded, options.UpdateOne, hc, UpdateOneOptionsBuilder_setOption_record,
    Option.map_some', Option.toList, List.append_assoc, List.nil_append, List.cons_append,
    List.singleton_append]

theorem UpdateOneSetter_foldl_SetBypassDocumentValidation (o : Option Bool) (r : UpdateOneOptions) :
    List.foldl (fun o s => UpdateOneSetter.apply s o) r (Option.map UpdateOneSetter.SetBypassDocumentValidation o).toList =
      { r with BypassDocumentValidation := o.or r.BypassDocumentValidation } := by
  cases o <;> rfl

theorem UpdateOneSetter_foldl_SetUpsert (o : Option Bool) (r : UpdateOneOptions) :
    List.foldl (fun o s => UpdateOneSetter.apply s o) r (Option.map UpdateOneSetter.SetUpsert o).toList =
      { r with Upsert := o.or r.Upsert } := by
  cases o <;> rfl

theorem UpdateOneSetter_foldl_SetCollation (o : Option Collation) (r : UpdateOneOptions) :
    List.foldl (fun o s => UpdateOneSetter.apply s o) r
        (Option.map (fun x => UpdateOneSetter.SetCollation (some x)) o).toList =
      { r with Collation := o.or r.Collation } := by
  cases o <;> rfl

theorem BuildUpdateOneOptions_resolve_recorded (c : UpdateOneOptions) :
    UpdateOneOptionsBuilder.resolve ⟨BuildUpdateOneOptions.recorded c⟩ =
      c := by
  simp only [UpdateOneOptionsBuilder.resolve, BuildUpdateOneOptions.recorded, List.foldl_append, List.foldl_cons,
    List.foldl_nil, UpdateOneSetter_foldl_SetBypassDocumentValidation, UpdateOneSetter_foldl_SetUpsert, UpdateOneSetter_foldl_SetCollation]
  simp only [UpdateOneSetter.apply, Option.or_none]

/-! ### Helper lemmas: `BuildUpdateManyOptions` -/

theorem UpdateManyOptionsBuilder_setOption_record {V : Type} (b : UpdateManyOptionsBuilder) (o : Option V)
    (S : V → UpdateManySetter) :
    setOption b o (fun v => b.record (S v)) = ⟨b.Opts ++ (Option.map S o).toList⟩ := by
  cases o <;> simp [setOption, UpdateManyOptionsBuilder.record]

theorem BuildUpdateManyOptions_cons (c : UpdateManyOptions) (rest : List (Option UpdateManyOptions)) :
    BuildUpdateManyOptions (some c :: rest) = some ⟨BuildUpdateManyOptions.recorded c⟩ := by
  have hc : ∀ (b : UpdateManyOptionsBuilder), (if c.Collation.isSome then b.SetCollation c.Collation else b) =
      ⟨b.Opts ++ (Option.map (fun x => UpdateManySetter.SetCollation (some x)) c.Collation).toList⟩ := by
    intro b; cases c.Collation <;> simp [UpdateManyOptionsBuilder.record]
  simp only [BuildUpdateManyOptions, BuildUpdateManyOptions.recorded, options.UpdateMany, hc, UpdateManyOptionsBuilder_setOption_record,
    Option.map_some', Option.toList, List.append_assoc, List.nil_append, List.cons_append,
    List.singleton_append]

theorem UpdateManySetter_foldl_SetBypassDocumentValidation (o : Option Bool) (r : UpdateManyOptions) :
    List.foldl (fun o s => UpdateManySetter.apply s o) r (Option.map UpdateManySetter.SetBypassDocumentValidation o).toList =
      { r with BypassDocumentValidation := o.or r.BypassDocumentValidation } := by
  cases o <;> rfl

theorem UpdateManySetter_foldl_SetUpsert (o : Option Bool) (r : UpdateManyOptions) :
    List.foldl (fun o s => UpdateManySetter.apply s o) r (Option.map UpdateManySetter.SetUpsert o).toList =
      { r with Upsert := o.or r.Upsert } := by
  cases o <;> rfl

theorem UpdateManySetter_foldl_SetCollation (o : Option Collation) (r : UpdateManyOptions) :
    List.foldl (fun o s => UpdateManySetter.apply s o) r
        (Option.map (fun x => UpdateManySetter.SetCollation (some x)) o).toList =
      { r with Collation := o.or r.Collation } := by
  cases o <;> rfl

theorem BuildUpdateManyOptions_resolve_recorded (c : UpdateManyOptions) :
    UpdateManyOptionsBuilder.resolve ⟨BuildUpdateManyOptions.recorded c⟩ =
      c := by
  simp only [UpdateManyOptionsBuilder.resolve, BuildUpdateManyOptions.recorded, List.foldl_append, List.foldl_cons,
    List.foldl_nil, UpdateManySetter_foldl_SetBypassDocumentValidation, UpdateManySetter_foldl_SetUpsert, UpdateManySetter_foldl_SetCollation]
  simp only [UpdateManySetter.apply, Option.or_none]
/-! ### Helper lemmas on fields: `BuildFindManyOptions` -/

theorem FindSetter_apply_comm (s t : FindSetter) (h : s.field ≠ t.field) (o : FindOptions) :
    t.apply (s.apply o) = s.apply (t.apply o) := by
  cases s <;> cases t <;> first | rfl | exact absurd rfl h

theorem BuildFindManyOptions_recorded_fields (c : FindOptions) :
    (BuildFindManyOptions.recorded c).map FindSetter.field =
      BuildFindManyOptions.order.filter (fun f => !f.isPointer || c.isSet f) := by
  have hp : ∀ (V : Type) (o : Option V) (S : V → FindSetter) (x : FindField),
      (∀ v, (S v).field = x) →
      List.map FindSetter.field (Option.map S o).toList = if o.isSome = true then [x] else [] := by
    intro V o S x h; cases o <;> simp [h]
  have hf : ∀ (p : FindField → Bool) (a : FindField) (l : List FindField),
      (a :: l).filter p = (if p a = true then [a] else []) ++ l.filter p := by
    intro p a l; cases h : p a <;> simp [List.filter_cons, h]
  simp only [BuildFindManyOptions.recorded, BuildFindManyOptions.order, List.map_append, List.map_cons, List.map_nil,
    FindSetter.field, hf, List.filter_nil, FindField.isPointer, FindOptions.isSet,
    hp _ c.AllowDiskUse FindSetter.SetAllowDiskUse .AllowDiskUse (fun _ => rfl),
    hp _ c.AllowPartialResults FindSetter.SetAllowPartialResults .AllowPartialResults (fun _ => rfl),
    hp _ c.BatchSize FindSetter.SetBatchSize .BatchSize (fun _ => rfl),
    hp _ c.Limit FindSetter.SetLimit .Limit (fun _ => rfl),
    hp _ c.Skip FindSetter.SetSkip .Skip (fun _ => rfl),
    hp _ c.MaxAwaitTime FindSetter.SetMaxAwaitTime .MaxAwaitTime (fun _ => rfl),
    hp _ c.NoCursorTimeout FindSetter.SetNoCursorTimeout .NoCursorTimeout (fun _ => rfl),
    hp _ c.ReturnKey FindSetter.SetReturnKey .ReturnKey (fun _ => rfl),
    hp _ c.Collation (fun x => FindSetter.SetCollation (some x)) .Collation (fun _ => rfl),
    hp _ c.CursorType FindSetter.SetCursorType .CursorType (fun _ => rfl),
    Bool.not_true, Bool.not_false, Bool.false_or, Bool.true_or, if_true, List.append_nil,
    List.append_assoc, List.singleton_append, List.cons_append, List.nil_append]

theorem BuildFindManyOptions_order_nodup : BuildFindManyOptions.order.Nodup := by decide

/-! ### Helper lemmas on fields: `BuildFindOneOptions` -/

theorem FindOneSetter_apply_comm (s t : FindOneSetter) (h : s.field ≠ t.field) (o : FindOneOptions) :
    t.apply (s.apply o) = s.apply (t.apply o) := by
  cases s <;> cases t <;> first | rfl | exact absurd rfl h

theorem BuildFindOneOptions_recorded_fields (c : FindOneOptions) :
    (BuildFindOneOptions.recorded c).map FindOneSetter.field =
      BuildFindOneOptions.order.filter (fun f => !f.isPointer || c.isSet f) := by
  have hp : ∀ (V : Type) (o : Option V) (S : V → FindOneSetter) (x : FindOneField),
      (∀ v, (S v).field = x) →
      List.map FindOneSetter.field (Option.map S o).toList = if o.isSome = true then [x] else [] := by
    intro V o S x h; cases o <;> simp [h]
  have hf : ∀ (p : FindOneField → Bool) (a : FindOneField) (l : List FindOneField),
      (a :: l).filter p = (if p a = true then [a] else []) ++ l.filter p := by
    intro p a l; cases h : p a <;> simp [List.filter_cons, h]
  simp only [BuildFindOneOptions.recorded, BuildFindOneOptions.order, List.map_append, List.map_cons, List.map_nil,
    FindOneSetter.field, hf, List.filter_nil, FindOneField.isPointer, FindOneOptions.isSet,
    hp _ c.AllowPartialResults FindOneSetter.SetAllowPartialResults .AllowPartialResults (fun _ => rfl),
    hp _ c.Skip FindOneSetter.SetSkip .Skip (fun _ => rfl),
    hp _ c.ReturnKey FindOneSetter.SetReturnKey .ReturnKey (fun _ => rfl),
    hp _ c.Collation (fun x => FindOneSetter.SetCollation (some x)) .Collation (fun _ => rfl),
    Bool.not_true, Bool.not_false, Bool.false_or, Bool.true_or, if_true, List.append_nil,
    List.append_assoc, List.singleton_append, List.cons_append, List.nil_append]

theorem BuildFindOneOptions_order_nodup : BuildFindOneOptions.order.Nodup := by decide

/-! ### Helper lemmas on fields: `BuildUpdateOneOptions` -/

theorem UpdateOneSetter_apply_comm (s t : UpdateOneSetter) (h : s.field ≠ t.field) (o : UpdateOneOptions) :
    t.apply (s.apply o) = s.apply (t.apply o) := by
  cases s <;> cases t <;> first | rfl | exact absurd rfl h

theorem BuildUpdateOneOptions_recorded_fields (c : UpdateOneOptions) :
    (BuildUpdateOneOptions.recorded c).map UpdateOneSetter.field =
      BuildUpdateOneOptions.order.filter (fun f => !f.isPointer || c.isSet f) := by
  have hp : ∀ (V : Type) (o : Option V) (S : V → UpdateOneSetter) (x : UpdateOneField),
      (∀ v, (S v).field = x) →
      List.map UpdateOneSetter.field (Option.map S o).toList = if o.isSome = true then [x] else [] := by
    intro V o S x h; cases o <;> simp [h]
  have hf : ∀ (p : UpdateOneField → Bool) (a : UpdateOneField) (l : List UpdateOneField),
      (a :: l).filter p = (if p a = true then [a] else []) ++ l.filter p := by
    intro p a l; cases h : p a <;> simp [List.filter_cons, h]
  simp only [BuildUpdateOneOptions.recorded, BuildUpdateOneOptions.order, List.map_append, List.map_cons, List.map_nil,
    UpdateOneSetter.field, hf, List.filter_nil, UpdateOneField.isPointer, UpdateOneOptions.isSet,
    hp _ c.BypassDocumentValidation UpdateOneSetter.SetBypassDocumentValidation .BypassDocumentValidation (fun _ => rfl),
    hp _ c.Upsert UpdateOneSetter.SetUpsert .Upsert (fun _ => rfl),
    hp _ c.Collation (fun x => UpdateOneSetter.SetCollation (some x)) .Collation (fun _ => rfl),
    Bool.not_true, Bool.not_false, Bool.false_or, Bool.true_or, if_true, List.append_nil,
    List.append_assoc, List.singleton_append, List.cons_append, List.nil_append]

theorem BuildUpdateOneOptions_order_nodup : BuildUpdateOneOptions.order.Nodup := by decide

/-! ### Helper lemmas on fields: `BuildUpdateManyOptions` -/

theorem UpdateManySetter_apply_comm (s t : UpdateManySetter) (h : s.field ≠ t.field) (o : UpdateManyOptions) :
    t.apply (s.apply o) = s.apply (t.apply o) := by
  cases s <;> cases t <;> first | rfl | exact absurd rfl h

theorem BuildUpdateManyOptions_recorded_fields (c : UpdateManyOptions) :
    (BuildUpdateManyOptions.recorded c).map UpdateManySetter.field =
      BuildUpdateManyOptions.order.filter (fun f => !f.isPointer || c.isSet f) := by
  have hp : ∀ (V : Type) (o : Option V) (S : V → UpdateManySetter) (x : UpdateManyField),
      (∀ v, (S v).field = x) →
      List.map UpdateManySetter.field (Option.map S o).toList = if o.isSome = true then [x] else [] := by
    intro V o S x h; cases o <;> simp [h]
  have hf : ∀ (p : UpdateManyField → Bool) (a : UpdateManyField) (l : List UpdateManyField),
      (a :: l).filter p = (if p a = true then [a] else []) ++ l.filter p := by
    intro p a l; cases h : p a <;> simp [List.filter_cons, h]
  simp only [BuildUpdateManyOptions.recorded, BuildUpdateManyOptions.order, List.map_append, List.map_cons, List.map_nil,
    UpdateManySetter.field, hf, List.filter_nil, UpdateManyField.isPointer, UpdateManyOptions.isSet,
    hp _ c.BypassDocumentValidation UpdateManySetter.SetBypassDocumentValidation .BypassDocumentValidation (fun _ => rfl),
    hp _ c.Upsert UpdateManySetter.SetUpsert .Upsert (fun _ => rfl),
    hp _ c.Collation (fun x => UpdateManySetter.SetCollation (some x)) .Collation (fun _ => rfl),
    Bool.not_true, Bool.not_false, Bool.false_or, Bool.true_or, if_true, List.append_nil,
    List.append_assoc, List.singleton_append, List.cons_append, List.nil_append]

theorem BuildUpdateManyOptions_order_nodup : BuildUpdateManyOptions.order.Nodup := by decide
/-! ### Helper lemmas: `BuildDatabaseOptions` -/

theorem BuildDatabaseOptions_some {D : DriverTypes} (c : DatabaseOptions D) :
    BuildDatabaseOptions (some c) = some ⟨BuildDatabaseOptions.recorded c⟩ := by
  obtain ⟨rc, wc, rp, bo, rg⟩ := c
  cases rc <;> cases wc <;> cases rp <;> cases bo <;> cases rg <;> rfl

theorem BuildDatabaseOptions_resolve_recorded {D : DriverTypes} (c : DatabaseOptions D) :
    DatabaseOptionsBuilder.resolve ⟨BuildDatabaseOptions.recorded c⟩ = c := by
  obtain ⟨rc, wc, rp, bo, rg⟩ := c
  cases rc <;> cases wc <;> cases rp <;> cases bo <;> cases rg <;> rfl

theorem DatabaseSetter_apply_comm {D : DriverTypes} (s t : DatabaseSetter D)
    (h : s.field ≠ t.field) (o : DatabaseOptions D) :
    t.apply (s.apply o) = s.apply (t.apply o) := by
  cases s <;> cases t <;> first | rfl | exact absurd rfl h

theorem BuildDatabaseOptions_recorded_fields {D : DriverTypes} (c : DatabaseOptions D) :
    (BuildDatabaseOptions.recorded c).map DatabaseSetter.field =
      BuildDatabaseOptions.order.filter (fun f => c.isSet f) := by
  obtain ⟨rc, wc, rp, bo, rg⟩ := c
  cases rc <;> cases wc <;> cases rp <;> cases bo <;> cases rg <;> rfl

theorem BuildDatabaseOptions_order_nodup : BuildDatabaseOptions.order.Nodup := by decide

/-! ### Helper lemmas: the setters of Collation and CursorType -/

theorem FindSetter_of_field_Collation (c : FindOptions) (s : FindSetter)
    (hs : s ∈ BuildFindManyOptions.recorded c) (hf : s.field = FindField.Collation) :
    s = FindSetter.SetCollation c.Collation ∧ c.Collation.isSome = true := by
  simp only [BuildFindManyOptions.recorded, List.mem_append, Option.mem_toList, Option.mem_def,
    Option.map_eq_some', List.mem_cons, List.mem_singleton, List.not_mem_nil, or_false] at hs
  cases s <;> simp [FindSetter.field] at hf
  simp at hs
  obtain ⟨x, hx, rfl⟩ := hs
  simp [hx]

theorem FindSetter_SetCollation_mem (c : FindOptions) (h : c.Collation.isSome = true) :
    FindSetter.SetCollation c.Collation ∈ BuildFindManyOptions.recorded c := by
  cases hc : c.Collation with
  | none => simp [hc] at h
  | some x => simp [BuildFindManyOptions.recorded, hc]

theorem FindSetter_of_field_CursorType (c : FindOptions) (s : FindSetter)
    (hs : s ∈ BuildFindManyOptions.recorded c) (hf : s.field = FindField.CursorType) :
    ∃ ct, c.CursorType = some ct ∧ s = FindSetter.SetCursorType ct := by
  simp only [BuildFindManyOptions.recorded, List.mem_append, Option.mem_toList, Option.mem_def,
    Option.map_eq_some', List.mem_cons, List.mem_singleton, List.not_mem_nil, or_false] at hs
  cases s <;> simp [FindSetter.field] at hf
  simp at hs
  simpa using hs

theorem FindSetter_SetCursorType_mem (c : FindOptions) (ct : Int) (h : c.CursorType = some ct) :
    FindSetter.SetCursorType ct ∈ BuildFindManyOptions.recorded c := by
  simp [BuildFindManyOptions.recorded, h]

theorem FindOneSetter_of_field_Collation (c : FindOneOptions) (s : FindOneSetter)
    (hs : s ∈ BuildFindOneOptions.recorded c) (hf : s.field = FindOneField.Collation) :
    s = FindOneSetter.SetCollation c.Collation ∧ c.Collation.isSome = true := by
  simp only [BuildFindOneOptions.recorded, List.mem_append, Option.mem_toList, Option.mem_def,
    Option.map_eq_some', List.mem_cons, List.mem_singleton, List.not_mem_nil, or_false] at hs
  cases s <;> simp [FindOneSetter.field] at hf
  simp at hs
  obtain ⟨x, hx, rfl⟩ := hs
  simp [hx]

theorem FindOneSetter_SetCollation_mem (c : FindOneOptions) (h : c.Collation.isSome = true) :
    FindOneSetter.SetCollation c.Collation ∈ BuildFindOneOptions.recorded c := by
  cases hc : c.Collation with
  | none => simp [hc] at h
  | some x => simp [BuildFindOneOptions.recorded, hc]

theorem UpdateOneSetter_of_field_Collation (c : UpdateOneOptions) (s : UpdateOneSetter)
    (hs : s ∈ BuildUpdateOneOptions.recorded c) (hf : s.field = UpdateOneField.Collation) :
    s = UpdateOneSetter.SetCollation c.Collation ∧ c.Collation.isSome = true := by
  simp only [BuildUpdateOneOptions.recorded, List.mem_append, Option.mem_toList, Option.mem_def,
    Option.map_eq_some', List.mem_cons, List.mem_singleton, List.not_mem_nil, or_false] at hs
  cases s <;> simp [UpdateOneSetter.field] at hf
  simp at hs
  obtain ⟨x, hx, rfl⟩ := hs
  simp [hx]

theorem UpdateOneSetter_SetCollation_mem (c : UpdateOneOptions) (h : c.Collation.isSome = true) :
    UpdateOneSetter.SetCollation c.Collation ∈ BuildUpdateOneOptions.recorded c := by
  cases hc : c.Collation with
  | none => simp [hc] at h
  | some x => simp [BuildUpdateOneOptions.recorded, hc]

theorem UpdateManySetter_of_field_Collation (c : UpdateManyOptions) (s : UpdateManySetter)
    (hs : s ∈ BuildUpdateManyOptions.recorded c) (hf : s.field = UpdateManyField.Collation) :
    s = UpdateManySetter.SetCollation c.Collation ∧ c.Collation.isSome = true := by
  simp only [BuildUpdateManyOptions.recorded, List.mem_append, Option.mem_toList, Option.mem_def,
    Option.map_eq_some', List.mem_cons, List.mem_singleton, List.not_mem_nil, or_false] at hs
  cases s <;> simp [UpdateManySetter.field] at hf
  simp at hs
  obtain ⟨x, hx, rfl⟩ := hs
  simp [hx]

theorem UpdateManySetter_SetCollation_mem (c : UpdateManyOptions) (h : c.Collation.isSome = true) :
    UpdateManySetter.SetCollation c.Collation ∈ BuildUpdateManyOptions.recorded c := by
  cases hc : c.Collation with
  | none => simp [hc] at h
  | some x => simp [BuildUpdateManyOptions.recorded, hc]

/-! ## Claims -/

/-- C1, counterexample: the find-many configuration whose only present field is the
comment `"note"` resolves with a Comment that is a pointer to `"note"`, not the
value `"note"` of the configuration. -/
theorem present_comment_resolves_to_a_pointer :
    ∃ b, BuildFindManyOptions [some { Comment := Any.str "note" }] = some b ∧
      b.resolve.Comment = Any.ptr (Any.str "note") ∧
      b.resolve.Comment ≠ Any.str "note" := by
  refine ⟨_, BuildFindManyOptions_cons _ [], ?_⟩
  rw [BuildFindManyOptions_resolve_recorded]
  exact ⟨rfl, fun h => Any.noConfusion h⟩

/-- C1, amended: for every non-nil find-many configuration `c` passed first to
`BuildFindManyOptions`, the translator returns a builder whose resolved options
agree with `c` on 16 of the 17 forwarded fields (an absent pointer field stays
absent, a present one carries exactly the value of `c`, and each of Sort, Hint,
Let, Max, Min, Projection equals that of `c`), and whose Comment, when the
comment of `c` is non-nil, is a pointer to that comment; the configuration of
the test, with sort `{age: -1}` and limit 1, resolves to options carrying
both. -/
theorem BuildFindManyOptions_forwards_fields_and_points_to_comment :
    (∀ (c : FindOptions) (rest : List (Option FindOptions)),
      ∃ b, BuildFindManyOptions (some c :: rest) = some b ∧
        b.resolve.AllowDiskUse = c.AllowDiskUse ∧
        b.resolve.AllowPartialResults = c.AllowPartialResults ∧
        b.resolve.BatchSize = c.BatchSize ∧
        b.resolve.Limit = c.Limit ∧
        b.resolve.Skip = c.Skip ∧
        b.resolve.MaxAwaitTime = c.MaxAwaitTime ∧
        b.resolve.NoCursorTimeout = c.NoCursorTimeout ∧
        b.resolve.ReturnKey = c.ReturnKey ∧
        b.resolve.Collation = c.Collation ∧
        b.resolve.CursorType = c.CursorType ∧
        b.resolve.Sort_ = c.Sort_ ∧
        (c.Comment ≠ Any.nil → b.resolve.Comment = Any.ptr c.Comment) ∧
        b.resolve.Hint = c.Hint ∧
        b.resolve.Let = c.Let ∧
        b.resolve.Max = c.Max ∧
        b.resolve.Min = c.Min ∧
        b.resolve.Projection = c.Projection) ∧
    (∃ b, BuildFindManyOptions
          [some { Sort_ := Any.doc [("age", Any.int (-1))], Limit := some 1 }] = some b ∧
        b.resolve.Sort_ = Any.doc [("age", Any.int (-1))] ∧ b.resolve.Limit = some 1) := by
  constructor
  · intro c rest
    refine ⟨_, BuildFindManyOptions_cons c rest, ?_⟩
    rw [BuildFindManyOptions_resolve_recorded]
    exact ⟨rfl, rfl, rfl, rfl, rfl, rfl, rfl, rfl, rfl, rfl, rfl, fun _ => rfl, rfl, rfl, rfl,
      rfl, rfl⟩
  · refine ⟨_, BuildFindManyOptions_cons _ [], ?_⟩
    rw [BuildFindManyOptions_resolve_recorded]
    exact ⟨rfl, rfl⟩

/-- C2, the code at the failing inputs: the find-many and the find-one configuration
whose every field is absent are translated into a builder that resolves with a
set Comment (a pointer to the nil value), while the default builders
`options.Find()` and `options.FindOne()` resolve with Comment unset, so the
resolved options are not the default ones. The all-absent update-one,
update-many and database-open configurations do resolve to the default options
of their kind. -/
theorem absent_find_configuration_resolves_with_comment_set :
    (∃ b, BuildFindManyOptions [some {}] = some b ∧
      (∀ f, ({} : FindOptions).isSet f = false) ∧
      b.resolve.Comment = Any.ptr Any.nil ∧
      b.resolve.isSet FindField.Comment = true ∧
      options.Find.resolve.isSet FindField.Comment = false ∧
      b.resolve ≠ options.Find.resolve) ∧
    (∃ b, BuildFindOneOptions [some {}] = some b ∧
      (∀ f, ({} : FindOneOptions).isSet f = false) ∧
      b.resolve.Comment = Any.ptr Any.nil ∧
      b.resolve.isSet FindOneField.Comment = true ∧
      options.FindOne.resolve.isSet FindOneField.Comment = false ∧
      b.resolve ≠ options.FindOne.resolve) ∧
    (∃ b, BuildUpdateOneOptions [some {}] = some b ∧ b.resolve = options.UpdateOne.resolve ∧
      ∀ f, ({} : UpdateOneOptions).isSet f = false ∧ b.resolve.isSet f = false) ∧
    (∃ b, BuildUpdateManyOptions [some {}] = some b ∧ b.resolve = options.UpdateMany.resolve ∧
      ∀ f, ({} : UpdateManyOptions).isSet f = false ∧ b.resolve.isSet f = false) ∧
    (∀ D : DriverTypes, ∃ b, BuildDatabaseOptions (some ({} : DatabaseOptions D)) = some b ∧
      b.resolve = (options.Database : DatabaseOptionsBuilder D).resolve ∧
      ∀ f, ({} : DatabaseOptions D).isSet f = false ∧ b.resolve.isSet f = false) := by
  refine ⟨⟨_, BuildFindManyOptions_cons _ _, ?_, ?_⟩, ⟨_, BuildFindOneOptions_cons _ _, ?_, ?_⟩,
    ⟨_, BuildUpdateOneOptions_cons _ _, ?_, ?_⟩, ⟨_, BuildUpdateManyOptions_cons _ _, ?_, ?_⟩,
    fun D => ⟨_, BuildDatabaseOptions_some _, ?_, ?_⟩⟩
  · intro f; cases f <;> rfl
  · rw [BuildFindManyOptions_resolve_recorded]
    refine ⟨rfl, rfl, rfl, fun h => ?_⟩
    have hc : Any.ptr Any.nil = Any.nil := congrArg FindOptions.Comment h
    exact Any.noConfusion hc
  · intro f; cases f <;> rfl
  · rw [BuildFindOneOptions_resolve_recorded]
    refine ⟨rfl, rfl, rfl, fun h => ?_⟩
    have hc : Any.ptr Any.nil = Any.nil := congrArg FindOneOptions.Comment h
    exact Any.noConfusion hc
  · rw [BuildUpdateOneOptions_resolve_recorded]; rfl
  · rw [BuildUpdateOneOptions_resolve_recorded]; intro f; cases f <;> exact ⟨rfl, rfl⟩
  · rw [BuildUpdateManyOptions_resolve_recorded]; rfl
  · rw [BuildUpdateManyOptions_resolve_recorded]; intro f; cases f <;> exact ⟨rfl, rfl⟩
  · rw [BuildDatabaseOptions_resolve_recorded]; rfl
  · rw [BuildDatabaseOptions_resolve_recorded]; intro f; cases f <;> exact ⟨rfl, rfl⟩

/-- C5: absent and zero are distinguished. For every pointer-optional field of every
variadic translator, the configuration holding the zero value (`false`, `0`, the
empty collation) in that field and the same configuration with the field absent
are translated into different resolved options: the first has the field present
with the zero value, the second has it unset. Equivalently, each translator is
injective on its forwarded pointer fields: configurations with equal resolved
options agree on them; the same holds for the five pointers of database-open. -/
theorem absent_and_zero_are_distinguished (D : DriverTypes) :
    (∀ c : FindOptions, AbsentZeroDistinguished BuildFindManyOptions FindOptionsBuilder.resolve
      FindOptions.AllowDiskUse (fun v => { c with AllowDiskUse := v }) false) ∧
    (∀ c : FindOptions, AbsentZeroDistinguished BuildFindManyOptions FindOptionsBuilder.resolve
      FindOptions.AllowPartialResults (fun v => { c with AllowPartialResults := v }) false) ∧
    (∀ c : FindOptions, AbsentZeroDistinguished BuildFindManyOptions FindOptionsBuilder.resolve
      FindOptions.BatchSize (fun v => { c with BatchSize := v }) 0) ∧
    (∀ c : FindOptions, AbsentZeroDistinguished BuildFindManyOptions FindOptionsBuilder.resolve
      FindOptions.Limit (fun v => { c with Limit := v }) 0) ∧
    (∀ c : FindOptions, AbsentZeroDistinguished BuildFindManyOptions FindOptionsBuilder.resolve
      FindOptions.Skip (fun v => { c with Skip := v }) 0) ∧
    (∀ c : FindOptions, AbsentZeroDistinguished BuildFindManyOptions FindOptionsBuilder.resolve
      FindOptions.MaxAwaitTime (fun v => { c with MaxAwaitTime := v }) 0) ∧
    (∀ c : FindOptions, AbsentZeroDistinguished BuildFindManyOptions FindOptionsBuilder.resolve
      FindOptions.NoCursorTimeout (fun v => { c with NoCursorTimeout := v }) false) ∧
    (∀ c : FindOptions, AbsentZeroDistinguished BuildFindManyOptions FindOptionsBuilder.resolve
      FindOptions.ReturnKey (fun v => { c with ReturnKey := v }) false) ∧
    (∀ c : FindOptions, AbsentZeroDistinguished BuildFindManyOptions FindOptionsBuilder.resolve
      FindOptions.Collation (fun v => { c with Collation := v }) {}) ∧
    (∀ c : FindOptions, AbsentZeroDistinguished BuildFindManyOptions FindOptionsBuilder.resolve
      FindOptions.CursorType (fun v => { c with CursorType := v }) 0) ∧
    (∀ c : FindOneOptions, AbsentZeroDistinguished BuildFindOneOptions FindOneOptionsBuilder.resolve
      FindOneOptions.AllowPartialResults (fun v => { c with AllowPartialResults := v }) false) ∧
    (∀ c : FindOneOptions, AbsentZeroDistinguished BuildFindOneOptions FindOneOptionsBuilder.resolve
      FindOneOptions.Skip (fun v => { c with Skip := v }) 0) ∧
    (∀ c : FindOneOptions, AbsentZeroDistinguished BuildFindOneOptions FindOneOptionsBuilder.resolve
      FindOneOptions.ReturnKey (fun v => { c with ReturnKey := v }) false) ∧
    (∀ c : FindOneOptions, AbsentZeroDistinguished BuildFindOneOptions FindOneOptionsBuilder.resolve
      FindOneOptions.Collation (fun v => { c with Collation := v }) {}) ∧
    (∀ c : UpdateOneOptions, AbsentZeroDistinguished BuildUpdateOneOptions UpdateOneOptionsBuilder.resolve
      UpdateOneOptions.BypassDocumentValidation (fun v => { c with BypassDocumentValidation := v }) false) ∧
    (∀ c : UpdateOneOptions, AbsentZeroDistinguished BuildUpdateOneOptions UpdateOneOptionsBuilder.resolve
      UpdateOneOptions.Upsert (fun v => { c with Upsert := v }) false) ∧
    (∀ c : UpdateOneOptions, AbsentZeroDistinguished BuildUpdateOneOptions UpdateOneOptionsBuilder.resolve
      UpdateOneOptions.Collation (fun v => { c with Collation := v }) {}) ∧
    (∀ c : UpdateManyOptions, AbsentZeroDistinguished BuildUpdateManyOptions UpdateManyOptionsBuilder.resolve
      UpdateManyOptions.BypassDocumentValidation (fun v => { c with BypassDocumentValidation := v }) false) ∧
    (∀ c : UpdateManyOptions, AbsentZeroDistinguished BuildUpdateManyOptions UpdateManyOptionsBuilder.resolve
      UpdateManyOptions.Upsert (fun v => { c with Upsert := v }) false) ∧
    (∀ c : UpdateManyOptions, AbsentZeroDistinguished BuildUpdateManyOptions UpdateManyOptionsBuilder.resolve
      UpdateManyOptions.Collation (fun v => { c with Collation := v }) {}) ∧
    (∀ (c₁ c₂ : FindOptions) (rest₁ rest₂ : List (Option FindOptions)) b₁ b₂,
      BuildFindManyOptions (some c₁ :: rest₁) = some b₁ → BuildFindManyOptions (some c₂ :: rest₂) = some b₂ →
      b₁.resolve = b₂.resolve →
      ∀ f ∈ BuildFindManyOptions.order, f.isPointer = true → FindOptions.agreeOn f c₁ c₂) ∧
    (∀ (c₁ c₂ : FindOneOptions) (rest₁ rest₂ : List (Option FindOneOptions)) b₁ b₂,
      BuildFindOneOptions (some c₁ :: rest₁) = some b₁ → BuildFindOneOptions (some c₂ :: rest₂) = some b₂ →
      b₁.resolve = b₂.resolve →
      ∀ f ∈ BuildFindOneOptions.order, f.isPointer = true → FindOneOptions.agreeOn f c₁ c₂) ∧
    (∀ (c₁ c₂ : UpdateOneOptions) (rest₁ rest₂ : List (Option UpdateOneOptions)) b₁ b₂,
      BuildUpdateOneOptions (some c₁ :: rest₁) = some b₁ → BuildUpdateOneOptions (some c₂ :: rest₂) = some b₂ →
      b₁.resolve = b₂.resolve →
      ∀ f ∈ BuildUpdateOneOptions.order, f.isPointer = true → UpdateOneOptions.agreeOn f c₁ c₂) ∧
    (∀ (c₁ c₂ : UpdateManyOptions) (rest₁ rest₂ : List (Option UpdateManyOptions)) b₁ b₂,
      BuildUpdateManyOptions (some c₁ :: rest₁) = some b₁ → BuildUpdateManyOptions (some c₂ :: rest₂) = some b₂ →
      b₁.resolve = b₂.resolve →
      ∀ f ∈ BuildUpdateManyOptions.order, f.isPointer = true → UpdateManyOptions.agreeOn f c₁ c₂) ∧
    (∀ (c₁ c₂ : DatabaseOptions D) b₁ b₂,
      BuildDatabaseOptions (some c₁) = some b₁ → BuildDatabaseOptions (some c₂) = some b₂ →
      b₁.resolve = b₂.resolve → ∀ f, DatabaseOptions.agreeOn f c₁ c₂) := by
  refine ⟨?_, ?_, ?_, ?_, ?_, ?_, ?_, ?_, ?_, ?_, ?_, ?_, ?_, ?_, ?_, ?_, ?_, ?_, ?_, ?_, ?_, ?_, ?_, ?_, ?_⟩
  · intro c rest
    refine ⟨_, _, BuildFindManyOptions_cons _ rest, BuildFindManyOptions_cons _ rest, ?_, ?_, ?_⟩ <;>
      simp only [BuildFindManyOptions_resolve_recorded]
    exact ne_of_some_of_none FindOptions.AllowDiskUse rfl rfl
  · intro c rest
    refine ⟨_, _, BuildFindManyOptions_cons _ rest, BuildFindManyOptions_cons _ rest, ?_, ?_, ?_⟩ <;>
      simp only [BuildFindManyOptions_resolve_recorded]
    exact ne_of_some_of_none FindOptions.AllowPartialResults rfl rfl
  · intro c rest
    refine ⟨_, _, BuildFindManyOptions_cons _ rest, BuildFindManyOptions_cons _ rest, ?_, ?_, ?_⟩ <;>
      simp only [BuildFindManyOptions_resolve_recorded]
    exact ne_of_some_of_none FindOptions.BatchSize rfl rfl
  · intro c rest
    refine ⟨_, _, BuildFindManyOptions_cons _ rest, BuildFindManyOptions_cons _ rest, ?_, ?_, ?_⟩ <;>
      simp only [BuildFindManyOptions_resolve_recorded]
    exact ne_of_some_of_none FindOptions.Limit rfl rfl
  · intro c rest
    refine ⟨_, _, BuildFindManyOptions_cons _ rest, BuildFindManyOptions_cons _ rest, ?_, ?_, ?_⟩ <;>
      simp only [BuildFindManyOptions_resolve_recorded]
    exact ne_of_some_of_none FindOptions.Skip rfl rfl
  · intro c rest
    refine ⟨_, _, BuildFindManyOptions_cons _ rest, BuildFindManyOptions_cons _ rest, ?_, ?_, ?_⟩ <;>
      simp only [BuildFindManyOptions_resolve_recorded]
    exact ne_of_some_of_none FindOptions.MaxAwaitTime rfl rfl
  · intro c rest
    refine ⟨_, _, BuildFindManyOptions_cons _ rest, BuildFindManyOptions_cons _ rest, ?_, ?_, ?_⟩ <;>
      simp only [BuildFindManyOptions_resolve_recorded]
    exact ne_of_some_of_none FindOptions.NoCursorTimeout rfl rfl
  · intro c rest
    refine ⟨_, _, BuildFindManyOptions_cons _ rest, BuildFindManyOptions_cons _ rest, ?_, ?_, ?_⟩ <;>
      simp only [BuildFindManyOptions_resolve_recorded]
    exact ne_of_some_of_none FindOptions.ReturnKey rfl rfl
  · intro c rest
    refine ⟨_, _, BuildFindManyOptions_cons _ rest, BuildFindManyOptions_cons _ rest, ?_, ?_, ?_⟩ <;>
      simp only [BuildFindManyOptions_resolve_recorded]
    exact ne_of_some_of_none FindOptions.Collation rfl rfl
  · intro c rest
    refine ⟨_, _, BuildFindManyOptions_cons _ rest, BuildFindManyOptions_cons _ rest, ?_, ?_, ?_⟩ <;>
      simp only [BuildFindManyOptions_resolve_recorded]
    exact ne_of_some_of_none FindOptions.CursorType rfl rfl
  · intro c rest
    refine ⟨_, _, BuildFindOneOptions_cons _ rest, BuildFindOneOptions_cons _ rest, ?_, ?_, ?_⟩ <;>
      simp only [BuildFindOneOptions_resolve_recorded]
    exact ne_of_some_of_none FindOneOptions.AllowPartialResults rfl rfl
  · intro c rest
    refine ⟨_, _, BuildFindOneOptions_cons _ rest, BuildFindOneOptions_cons _ rest, ?_, ?_, ?_⟩ <;>
      simp only [BuildFindOneOptions_resolve_recorded]
    exact ne_of_some_of_none FindOneOptions.Skip rfl rfl
  · intro c rest
    refine ⟨_, _, BuildFindOneOptions_cons _ rest, BuildFindOneOptions_cons _ rest, ?_, ?_, ?_⟩ <;>
      simp only [BuildFindOneOptions_resolve_recorded]
    exact ne_of_some_of_none FindOneOptions.ReturnKey rfl rfl
  · intro c rest
    refine ⟨_, _, BuildFindOneOptions_cons _ rest, BuildFindOneOptions_cons _ rest, ?_, ?_, ?_⟩ <;>
      simp only [BuildFindOneOptions_resolve_recorded]
    exact ne_of_some_of_none FindOneOptions.Collation rfl rfl
  · intro c rest
    refine ⟨_, _, BuildUpdateOneOptions_cons _ rest, BuildUpdateOneOptions_cons _ rest, ?_, ?_, ?_⟩ <;>
      simp only [BuildUpdateOneOptions_resolve_recorded]
    exact ne_of_some_of_none UpdateOneOptions.BypassDocumentValidation rfl rfl
  · intro c rest
    refine ⟨_, _, BuildUpdateOneOptions_cons _ rest, BuildUpdateOneOptions_cons _ rest, ?_, ?_, ?_⟩ <;>
      simp only [BuildUpdateOneOptions_resolve_recorded]
    exact ne_of_some_of_none UpdateOneOptions.Upsert rfl rfl
  · intro c rest
    refine ⟨_, _, BuildUpdateOneOptions_cons _ rest, BuildUpdateOneOptions_cons _ rest, ?_, ?_, ?_⟩ <;>
      simp only [BuildUpdateOneOptions_resolve_recorded]
    exact ne_of_some_of_none UpdateOneOptions.Collation rfl rfl
  · intro c rest
    refine ⟨_, _, BuildUpdateManyOptions_cons _ rest, BuildUpdateManyOptions_cons _ rest, ?_, ?_, ?_⟩ <;>
      simp only [BuildUpdateManyOptions_resolve_recorded]
    exact ne_of_some_of_none UpdateManyOptions.BypassDocumentValidation rfl rfl
  · intro c rest
    refine ⟨_, _, BuildUpdateManyOptions_cons _ rest, BuildUpdateManyOptions_cons _ rest, ?_, ?_, ?_⟩ <;>
      simp only [BuildUpdateManyOptions_resolve_recorded]
    exact ne_of_some_of_none UpdateManyOptions.Upsert rfl rfl
  · intro c rest
    refine ⟨_, _, BuildUpdateManyOptions_cons _ rest, BuildUpdateManyOptions_cons _ rest, ?_, ?_, ?_⟩ <;>
      simp only [BuildUpdateManyOptions_resolve_recorded]
    exact ne_of_some_of_none UpdateManyOptions.Collation rfl rfl
  · intro c₁ c₂ rest₁ rest₂ b₁ b₂ h₁ h₂ h f hf _
    rw [BuildFindManyOptions_cons] at h₁ h₂
    cases h₁; cases h₂
    simp only [BuildFindManyOptions_resolve_recorded, FindOptions.mk.injEq] at h
    cases f <;> simp_all [FindOptions.agreeOn, BuildFindManyOptions.order]
  · intro c₁ c₂ rest₁ rest₂ b₁ b₂ h₁ h₂ h f hf _
    rw [BuildFindOneOptions_cons] at h₁ h₂
    cases h₁; cases h₂
    simp only [BuildFindOneOptions_resolve_recorded, FindOneOptions.mk.injEq] at h
    cases f <;> simp_all [FindOneOptions.agreeOn, BuildFindOneOptions.order]
  · intro c₁ c₂ rest₁ rest₂ b₁ b₂ h₁ h₂ h f hf _
    rw [BuildUpdateOneOptions_cons] at h₁ h₂
    cases h₁; cases h₂
    simp only [BuildUpdateOneOptions_resolve_recorded, UpdateOneOptions.mk.injEq] at h
    cases f <;> simp_all [UpdateOneOptions.agreeOn, BuildUpdateOneOptions.order]
  · intro c₁ c₂ rest₁ rest₂ b₁ b₂ h₁ h₂ h f hf _
    rw [BuildUpdateManyOptions_cons] at h₁ h₂
    cases h₁; cases h₂
    simp only [BuildUpdateManyOptions_resolve_recorded, UpdateManyOptions.mk.injEq] at h
    cases f <;> simp_all [UpdateManyOptions.agreeOn, BuildUpdateManyOptions.order]
  · intro c₁ c₂ b₁ b₂ h₁ h₂ h f
    rw [BuildDatabaseOptions_some] at h₁ h₂
    cases h₁; cases h₂
    simp only [BuildDatabaseOptions_resolve_recorded] at h
    subst h
    cases f <;> rfl

/-- C6: for every non-nil update-one configuration `c` and every non-nil update-many
configuration `d`, the built options resolve with `ArrayFilters` equal to that of
the configuration (the same list), and `Upsert`, `BypassDocumentValidation` and
`Collation` resolve to what the configuration holds, so none of them becomes set
when it is absent. The configurations of the tests, with array filters
`[{item.sku: "A1"}]` and `[{item.qty: {$gte: 1}}]`, resolve to these filters with
the three other options unset. -/
theorem update_array_filters_are_forwarded :
    (∀ (c : UpdateOneOptions) (rest : List (Option UpdateOneOptions)),
      ∃ b, BuildUpdateOneOptions (some c :: rest) = some b ∧
        b.resolve.ArrayFilters = c.ArrayFilters ∧
        b.resolve.Upsert = c.Upsert ∧
        b.resolve.BypassDocumentValidation = c.BypassDocumentValidation ∧
        b.resolve.Collation = c.Collation) ∧
    (∀ (d : UpdateManyOptions) (rest : List (Option UpdateManyOptions)),
      ∃ b, BuildUpdateManyOptions (some d :: rest) = some b ∧
        b.resolve.ArrayFilters = d.ArrayFilters ∧
        b.resolve.Upsert = d.Upsert ∧
        b.resolve.BypassDocumentValidation = d.BypassDocumentValidation ∧
        b.resolve.Collation = d.Collation) ∧
    (∃ b, BuildUpdateOneOptions
          [some { ArrayFilters := some [Any.doc [("item.sku", Any.str "A1")]] }] = some b ∧
        b.resolve.ArrayFilters = some [Any.doc [("item.sku", Any.str "A1")]] ∧
        b.resolve.Upsert = none ∧ b.resolve.BypassDocumentValidation = none ∧
        b.resolve.Collation = none) ∧
    (∃ b, BuildUpdateManyOptions
          [some { ArrayFilters := some [Any.doc [("item.qty", Any.doc [("$gte", Any.int 1)])]] }]
          = some b ∧
        b.resolve.ArrayFilters =
          some [Any.doc [("item.qty", Any.doc [("$gte", Any.int 1)])]] ∧
        b.resolve.Upsert = none ∧ b.resolve.BypassDocumentValidation = none ∧
        b.resolve.Collation = none) := by
  refine ⟨?_, ?_, ?_, ?_⟩
  · intro c rest
    refine ⟨_, BuildUpdateOneOptions_cons c rest, ?_⟩
    rw [BuildUpdateOneOptions_resolve_recorded]
    exact ⟨rfl, rfl, rfl, rfl⟩
  · intro d rest
    refine ⟨_, BuildUpdateManyOptions_cons d rest, ?_⟩
    rw [BuildUpdateManyOptions_resolve_recorded]
    exact ⟨rfl, rfl, rfl, rfl⟩
  · refine ⟨_, BuildUpdateOneOptions_cons _ [], ?_⟩
    rw [BuildUpdateOneOptions_resolve_recorded]
    exact ⟨rfl, rfl, rfl, rfl⟩
  · refine ⟨_, BuildUpdateManyOptions_cons _ [], ?_⟩
    rw [BuildUpdateManyOptions_resolve_recorded]
    exact ⟨rfl, rfl, rfl, rfl⟩

/-- C7: for every non-nil database-open configuration `c`, `BuildDatabaseOptions`
returns the builder whose recorded setters are, in this order, `SetBSONOptions`,
`SetReadConcern`, `SetReadPreference`, `SetRegistry` and `SetWriteConcern`, each
present exactly when the field is non-nil in `c` and carrying the pointer of
`c`, and no other setter; when all five fields are nil the result is the default
builder `options.Database()`, with no recorded setter. -/
theorem BuildDatabaseOptions_records_the_non_nil_fields (D : DriverTypes) :
    (∀ c : DatabaseOptions D, BuildDatabaseOptions (some c) = some ⟨
      (if c.BSONOptions.isSome then [DatabaseSetter.SetBSONOptions c.BSONOptions] else []) ++
      (if c.ReadConcern.isSome then [DatabaseSetter.SetReadConcern c.ReadConcern] else []) ++
      (if c.ReadPreference.isSome then [DatabaseSetter.SetReadPreference c.ReadPreference]
        else []) ++
      (if c.Registry.isSome then [DatabaseSetter.SetRegistry c.Registry] else []) ++
      (if c.WriteConcern.isSome then [DatabaseSetter.SetWriteConcern c.WriteConcern]
        else [])⟩) ∧
    (∀ c : DatabaseOptions D, (∀ f, c.isSet f = false) →
      BuildDatabaseOptions (some c) = some options.Database ∧
      (options.Database : DatabaseOptionsBuilder D).Opts = []) := by
  refine ⟨fun c => BuildDatabaseOptions_some c, ?_⟩
  intro c h
  have h1 := h DatabaseField.BSONOptions
  have h2 := h DatabaseField.ReadConcern
  have h3 := h DatabaseField.ReadPreference
  have h4 := h DatabaseField.Registry
  have h5 := h DatabaseField.WriteConcern
  simp only [DatabaseOptions.isSet] at h1 h2 h3 h4 h5
  refine ⟨?_, rfl⟩
  rw [BuildDatabaseOptions_some]
  simp [BuildDatabaseOptions.recorded, h1, h2, h3, h4, h5, options.Database]

/-- C8: the order in which fields are applied is insignificant. For every argument
list on which a translator returns a builder, no option field has two recorded
setters, and applying the recorded setters to an empty options value in any
permutation of their order yields the resolved options of the builder. -/
theorem setter_order_is_insignificant (D : DriverTypes) :
    (∀ (opts : Option (DatabaseOptions D)) (b : DatabaseOptionsBuilder D),
      BuildDatabaseOptions opts = some b →
      (b.Opts.map DatabaseSetter.field).Nodup ∧
      ∀ l : List (DatabaseSetter D), l.Perm b.Opts →
        DatabaseOptionsBuilder.resolve ⟨l⟩ = b.resolve) ∧
    (∀ (opts : List (Option FindOptions)) (b : FindOptionsBuilder),
      BuildFindManyOptions opts = some b →
      (b.Opts.map FindSetter.field).Nodup ∧
      ∀ l : List FindSetter, l.Perm b.Opts → FindOptionsBuilder.resolve ⟨l⟩ = b.resolve) ∧
    (∀ (opts : List (Option FindOneOptions)) (b : FindOneOptionsBuilder),
      BuildFindOneOptions opts = some b →
      (b.Opts.map FindOneSetter.field).Nodup ∧
      ∀ l : List FindOneSetter, l.Perm b.Opts → FindOneOptionsBuilder.resolve ⟨l⟩ = b.resolve) ∧
    (∀ (opts : List (Option UpdateOneOptions)) (b : UpdateOneOptionsBuilder),
      BuildUpdateOneOptions opts = some b →
      (b.Opts.map UpdateOneSetter.field).Nodup ∧
      ∀ l : List UpdateOneSetter, l.Perm b.Opts → UpdateOneOptionsBuilder.resolve ⟨l⟩ = b.resolve) ∧
    (∀ (opts : List (Option UpdateManyOptions)) (b : UpdateManyOptionsBuilder),
      BuildUpdateManyOptions opts = some b →
      (b.Opts.map UpdateManySetter.field).Nodup ∧
      ∀ l : List UpdateManySetter, l.Perm b.Opts → UpdateManyOptionsBuilder.resolve ⟨l⟩ = b.resolve) := by
  refine ⟨?_, ?_, ?_, ?_, ?_⟩
  · intro opts b h
    cases opts with
    | none => cases h
    | some c =>
      rw [BuildDatabaseOptions_some] at h
      cases h
      have nd : ((BuildDatabaseOptions.recorded c).map DatabaseSetter.field).Nodup := by
        rw [BuildDatabaseOptions_recorded_fields]
        exact BuildDatabaseOptions_order_nodup.filter _
      refine ⟨nd, fun l p => ?_⟩
      exact (foldl_perm_of_nodup_fields DatabaseSetter.apply DatabaseSetter.field
        DatabaseSetter_apply_comm p.symm nd {}).symm
  · intro opts b h
    match opts, h with
    | [], h =>
      cases h
      exact ⟨List.nodup_nil, fun l p => by rw [List.Perm.eq_nil p]; rfl⟩
    | none :: _, h => cases h
    | some c :: rest, h =>
      rw [BuildFindManyOptions_cons] at h
      cases h
      have nd : ((BuildFindManyOptions.recorded c).map FindSetter.field).Nodup := by
        rw [BuildFindManyOptions_recorded_fields]
        exact BuildFindManyOptions_order_nodup.filter _
      refine ⟨nd, fun l p => ?_⟩
      exact (foldl_perm_of_nodup_fields FindSetter.apply FindSetter.field
        FindSetter_apply_comm p.symm nd {}).symm
  · intro opts b h
    match opts, h with
    | [], h =>
      cases h
      exact ⟨List.nodup_nil, fun l p => by rw [List.Perm.eq_nil p]; rfl⟩
    | none :: _, h => cases h
    | some c :: rest, h =>
      rw [BuildFindOneOptions_cons] at h
      cases h
      have nd : ((BuildFindOneOptions.recorded c).map FindOneSetter.field).Nodup := by
        rw [BuildFindOneOptions_recorded_fields]
        exact BuildFindOneOptions_order_nodup.filter _
      refine ⟨nd, fun l p => ?_⟩
      exact (foldl_perm_of_nodup_fields FindOneSetter.apply FindOneSetter.field
        FindOneSetter_apply_comm p.symm nd {}).symm
  · intro opts b h
    match opts, h with
    | [], h =>
      cases h
      exact ⟨List.nodup_nil, fun l p => by rw [List.Perm.eq_nil p]; rfl⟩
    | none :: _, h => cases h
    | some c :: rest, h =>
      rw [BuildUpdateOneOptions_cons] at h
      cases h
      have nd : ((BuildUpdateOneOptions.recorded c).map UpdateOneSetter.field).Nodup := by
        rw [BuildUpdateOneOptions_recorded_fields]
        exact BuildUpdateOneOptions_order_nodup.filter _
      refine ⟨nd, fun l p => ?_⟩
      exact (foldl_perm_of_nodup_fields UpdateOneSetter.apply UpdateOneSetter.field
        UpdateOneSetter_apply_comm p.symm nd {}).symm
  · intro opts b h
    match opts, h with
    | [], h =>
      cases h
      exact ⟨List.nodup_nil, fun l p => by rw [List.Perm.eq_nil p]; rfl⟩
    | none :: _, h => cases h
    | some c :: rest, h =>
      rw [BuildUpdateManyOptions_cons] at h
      cases h
      have nd : ((BuildUpdateManyOptions.recorded c).map UpdateManySetter.field).Nodup := by
        rw [BuildUpdateManyOptions_recorded_fields]
        exact BuildUpdateManyOptions_order_nodup.filter _
      refine ⟨nd, fun l p => ?_⟩
      exact (foldl_perm_of_nodup_fields UpdateManySetter.apply UpdateManySetter.field
        UpdateManySetter_apply_comm p.symm nd {}).symm

/-- C9: fields are independent. For each translator and every two non-nil
configurations that agree on every field other than `f`, both are translated and
the two resolved options agree on every field other than `f`. -/
theorem fields_are_independent (D : DriverTypes) :
    (∀ (f : DatabaseField) (c₁ c₂ : DatabaseOptions D),
      (∀ g, g ≠ f → DatabaseOptions.agreeOn g c₁ c₂) →
      ∃ b₁ b₂, BuildDatabaseOptions (some c₁) = some b₁ ∧
        BuildDatabaseOptions (some c₂) = some b₂ ∧
        ∀ g, g ≠ f → DatabaseOptions.agreeOn g b₁.resolve b₂.resolve) ∧
    (∀ (f : FindField) (c₁ c₂ : FindOptions) (rest₁ rest₂ : List (Option FindOptions)),
      (∀ g, g ≠ f → FindOptions.agreeOn g c₁ c₂) →
      ∃ b₁ b₂, BuildFindManyOptions (some c₁ :: rest₁) = some b₁ ∧
        BuildFindManyOptions (some c₂ :: rest₂) = some b₂ ∧
        ∀ g, g ≠ f → FindOptions.agreeOn g b₁.resolve b₂.resolve) ∧
    (∀ (f : FindOneField) (c₁ c₂ : FindOneOptions) (rest₁ rest₂ : List (Option FindOneOptions)),
      (∀ g, g ≠ f → FindOneOptions.agreeOn g c₁ c₂) →
      ∃ b₁ b₂, BuildFindOneOptions (some c₁ :: rest₁) = some b₁ ∧
        BuildFindOneOptions (some c₂ :: rest₂) = some b₂ ∧
        ∀ g, g ≠ f → FindOneOptions.agreeOn g b₁.resolve b₂.resolve) ∧
    (∀ (f : UpdateOneField) (c₁ c₂ : UpdateOneOptions) (rest₁ rest₂ : List (Option UpdateOneOptions)),
      (∀ g, g ≠ f → UpdateOneOptions.agreeOn g c₁ c₂) →
      ∃ b₁ b₂, BuildUpdateOneOptions (some c₁ :: rest₁) = some b₁ ∧
        BuildUpdateOneOptions (some c₂ :: rest₂) = some b₂ ∧
        ∀ g, g ≠ f → UpdateOneOptions.agreeOn g b₁.resolve b₂.resolve) ∧
    (∀ (f : UpdateManyField) (c₁ c₂ : UpdateManyOptions) (rest₁ rest₂ : List (Option UpdateManyOptions)),
      (∀ g, g ≠ f → UpdateManyOptions.agreeOn g c₁ c₂) →
      ∃ b₁ b₂, BuildUpdateManyOptions (some c₁ :: rest₁) = some b₁ ∧
        BuildUpdateManyOptions (some c₂ :: rest₂) = some b₂ ∧
        ∀ g, g ≠ f → UpdateManyOptions.agreeOn g b₁.resolve b₂.resolve) := by
  refine ⟨?_, ?_, ?_, ?_, ?_⟩
  · intro f c₁ c₂ h
    refine ⟨_, _, BuildDatabaseOptions_some c₁, BuildDatabaseOptions_some c₂, ?_⟩
    intro g hg
    rw [BuildDatabaseOptions_resolve_recorded, BuildDatabaseOptions_resolve_recorded]
    exact h g hg
  · intro f c₁ c₂ rest₁ rest₂ h
    refine ⟨_, _, BuildFindManyOptions_cons c₁ rest₁, BuildFindManyOptions_cons c₂ rest₂, ?_⟩
    intro g hg
    have hgg := h g hg
    rw [BuildFindManyOptions_resolve_recorded, BuildFindManyOptions_resolve_recorded]
    cases g <;> first | exact hgg | rfl | exact congrArg Any.ptr hgg
  · intro f c₁ c₂ rest₁ rest₂ h
    refine ⟨_, _, BuildFindOneOptions_cons c₁ rest₁, BuildFindOneOptions_cons c₂ rest₂, ?_⟩
    intro g hg
    have hgg := h g hg
    rw [BuildFindOneOptions_resolve_recorded, BuildFindOneOptions_resolve_recorded]
    cases g <;> first | exact hgg | rfl | exact congrArg Any.ptr hgg
  · intro f c₁ c₂ rest₁ rest₂ h
    refine ⟨_, _, BuildUpdateOneOptions_cons c₁ rest₁, BuildUpdateOneOptions_cons c₂ rest₂, ?_⟩
    intro g hg
    have hgg := h g hg
    rw [BuildUpdateOneOptions_resolve_recorded, BuildUpdateOneOptions_resolve_recorded]
    exact hgg
  · intro f c₁ c₂ rest₁ rest₂ h
    refine ⟨_, _, BuildUpdateManyOptions_cons c₁ rest₁, BuildUpdateManyOptions_cons c₂ rest₂, ?_⟩
    intro g hg
    have hgg := h g hg
    rw [BuildUpdateManyOptions_resolve_recorded, BuildUpdateManyOptions_resolve_recorded]
    exact hgg

/-- C10, counterexample: a record that carries no identity is not read back. In a
collection holding the user of identity "1", creating the user named Carol with
an empty `ID` succeeds and stores her under the identity the engine
generates; `FindOne` by that identity returns the stored document, which is not
the created record, and no filter makes `FindOne` return the created record. -/
theorem Create_without_identity_is_not_read_back :
    testUserStore.identity ("", "Carol") = none ∧
    ∃ coll' i, Model.Create testUserStore [("1", "Alice")] ("", "Carol") = Except.ok coll' ∧
      coll' = [("1", "Alice"), (i, "Carol")] ∧
      testUserStore.identity (i, "Carol") = some i ∧
      Model.FindOne coll' (fun u => decide (testUserStore.identity u = some i)) =
        Except.ok (i, "Carol") ∧
      (i, "Carol") ≠ ("", "Carol") ∧
      ∀ filter : String × String → Bool,
        Model.FindOne coll' filter ≠ Except.ok ("", "Carol") := by
  refine ⟨by decide, _, "generated1", ?_, rfl, by decide, ?_, by decide, ?_⟩
  · simp [Model.Create, testUserStore]
    decide
  · simp [Model.FindOne, testUserStore, List.find?]
  · intro filter h
    unfold Model.FindOne at h
    cases hf : List.find? filter [("1", "Alice"), ("generated1", "Carol")] with
    | none => simp [hf] at h
    | some d =>
      simp only [hf, Except.ok.injEq] at h
      have hmem := List.mem_of_find?_eq_some hf
      rw [h] at hmem
      revert hmem
      decide

/-- C10, amended: round trip of `Create` and `FindOne`. For every record carrying an
identity `i`, every collection state holding no document of identity `i`, and
every filter that selects exactly the documents of identity `i`, `Create`
succeeds and `FindOne` on the collection it leaves returns, without error, the
created record. -/
theorem Create_then_FindOne_returns_the_record {W I : Type} [DecidableEq I] (S : Store W I)
    (coll : List W) (record : W) (i : I) (filter : W → Bool)
    (hid : S.identity record = some i)
    (hfresh : ∀ d ∈ coll, S.identity d ≠ some i)
    (hfilter : ∀ d, filter d = true ↔ S.identity d = some i) :
    ∃ coll', Model.Create S coll record = Except.ok coll' ∧
      Model.FindOne coll' filter = Except.ok record := by
  have hany : coll.any (fun d => decide (S.identity d = some i)) = false := by
    rw [List.any_eq_false]
    intro d hd
    simpa using hfresh d hd
  have hnone : coll.find? filter = none := by
    rw [List.find?_eq_none]
    intro d hd hf
    exact hfresh d hd ((hfilter d).mp hf)
  have hrec : filter record = true := (hfilter record).mpr hid
  refine ⟨coll ++ [record], ?_, ?_⟩
  · simp [Model.Create, hid, hany]
  · simp [Model.FindOne, List.find?_append, hnone, List.find?_cons, hrec]

/-- C10, witness: in a collection holding the user of identity "1", creating the
user of identity "2" and finding by that identity returns the created user. -/
theorem Create_then_FindOne_returns_the_record_witness :
    ∃ coll', Model.Create testUserStore [("1", "Alice")] ("2", "Bob") = Except.ok coll' ∧
      Model.FindOne coll' (fun u => decide (u.1 = "2")) = Except.ok ("2", "Bob") :=
  Create_then_FindOne_returns_the_record testUserStore [("1", "Alice")] ("2", "Bob") "2"
    (fun u => decide (u.1 = "2")) (by decide)
    (by intro d hd; simp at hd; subst hd; decide)
    (by
      intro d
      simp only [decide_eq_true_eq, testUserStore]
      constructor
      · intro h; simp [h]
      · intro h
        by_cases he : d.1 = ""
        · simp [he] at h
        · simpa [he] using h)

/-- C11: for every collection state, `DeleteMany` with the empty filter succeeds, and
`FindMany` with the empty filter on the collection it leaves returns the empty
sequence with no error. -/
theorem DeleteMany_then_FindMany_is_empty {W : Type} (coll : List W) :
    ∃ coll', Model.DeleteMany coll (Model.filterOf []) = Except.ok coll' ∧
      Model.FindMany coll' (Model.filterOf []) = Except.ok [] := by
  refine ⟨_, rfl, ?_⟩
  simp [Model.FindMany, Model.filterOf]

/-- C12: each of the four variadic translators, called with no configuration
argument, returns the default builder of its kind; that builder has no recorded
setter, not even for a composite field, and its resolved options have every
field unset. -/
theorem no_argument_returns_the_default_builder :
    (BuildFindManyOptions [] = some options.Find ∧ options.Find.Opts = [] ∧
      ∀ f, options.Find.resolve.isSet f = false) ∧
    (BuildFindOneOptions [] = some options.FindOne ∧ options.FindOne.Opts = [] ∧
      ∀ f, options.FindOne.resolve.isSet f = false) ∧
    (BuildUpdateOneOptions [] = some options.UpdateOne ∧ options.UpdateOne.Opts = [] ∧
      ∀ f, options.UpdateOne.resolve.isSet f = false) ∧
    (BuildUpdateManyOptions [] = some options.UpdateMany ∧ options.UpdateMany.Opts = [] ∧
      ∀ f, options.UpdateMany.resolve.isSet f = false) := by
  refine ⟨⟨rfl, rfl, ?_⟩, ⟨rfl, rfl, ?_⟩, ⟨rfl, rfl, ?_⟩, ⟨rfl, rfl, ?_⟩⟩ <;>
    intro f <;> cases f <;> rfl

/-- C13: only the first configuration is read. For each of the four variadic
translators, every non-nil configuration `c` and every list `rest` of further
arguments (nil entries included), the result on `c` followed by `rest` is the
result on `c` alone. -/
theorem arguments_after_the_first_are_ignored :
    (∀ (c : FindOptions) (rest : List (Option FindOptions)),
      BuildFindManyOptions (some c :: rest) = BuildFindManyOptions [some c]) ∧
    (∀ (c : FindOneOptions) (rest : List (Option FindOneOptions)),
      BuildFindOneOptions (some c :: rest) = BuildFindOneOptions [some c]) ∧
    (∀ (c : UpdateOneOptions) (rest : List (Option UpdateOneOptions)),
      BuildUpdateOneOptions (some c :: rest) = BuildUpdateOneOptions [some c]) ∧
    (∀ (c : UpdateManyOptions) (rest : List (Option UpdateManyOptions)),
      BuildUpdateManyOptions (some c :: rest) = BuildUpdateManyOptions [some c]) := by
  refine ⟨?_, ?_, ?_, ?_⟩
  · intro c rest
    rw [BuildFindManyOptions_cons, BuildFindManyOptions_cons]
  · intro c rest
    rw [BuildFindOneOptions_cons, BuildFindOneOptions_cons]
  · intro c rest
    rw [BuildUpdateOneOptions_cons, BuildUpdateOneOptions_cons]
  · intro c rest
    rw [BuildUpdateManyOptions_cons, BuildUpdateManyOptions_cons]

/-- C14: collation and cursor type are gated by a plain non-nil check. In each of
the four variadic translators, for every non-nil configuration `c`, a setter of
the field Collation is recorded if and only if `c.Collation` is non-nil, and such
a setter is `SetCollation` carrying the pointer `c.Collation` itself; in
`BuildFindManyOptions` a setter of the field CursorType is recorded if and only
if `c.CursorType` is non-nil, and it is `SetCursorType` carrying the pointed-to
value. -/
theorem collation_and_cursor_type_are_gated_by_non_nil :
    (∀ (c : FindOptions) (rest : List (Option FindOptions)),
      ∃ b, BuildFindManyOptions (some c :: rest) = some b ∧
        ((∃ s ∈ b.Opts, s.field = FindField.Collation) ↔ c.Collation.isSome = true) ∧
        (∀ s ∈ b.Opts, s.field = FindField.Collation →
          s = FindSetter.SetCollation c.Collation) ∧
        ((∃ s ∈ b.Opts, s.field = FindField.CursorType) ↔ c.CursorType.isSome = true) ∧
        (∀ s ∈ b.Opts, s.field = FindField.CursorType →
          ∃ ct, c.CursorType = some ct ∧ s = FindSetter.SetCursorType ct)) ∧
    (∀ (c : FindOneOptions) (rest : List (Option FindOneOptions)),
      ∃ b, BuildFindOneOptions (some c :: rest) = some b ∧
        ((∃ s ∈ b.Opts, s.field = FindOneField.Collation) ↔ c.Collation.isSome = true) ∧
        (∀ s ∈ b.Opts, s.field = FindOneField.Collation →
          s = FindOneSetter.SetCollation c.Collation)) ∧
    (∀ (c : UpdateOneOptions) (rest : List (Option UpdateOneOptions)),
      ∃ b, BuildUpdateOneOptions (some c :: rest) = some b ∧
        ((∃ s ∈ b.Opts, s.field = UpdateOneField.Collation) ↔ c.Collation.isSome = true) ∧
        (∀ s ∈ b.Opts, s.field = UpdateOneField.Collation →
          s = UpdateOneSetter.SetCollation c.Collation)) ∧
    (∀ (c : UpdateManyOptions) (rest : List (Option UpdateManyOptions)),
      ∃ b, BuildUpdateManyOptions (some c :: rest) = some b ∧
        ((∃ s ∈ b.Opts, s.field = UpdateManyField.Collation) ↔ c.Collation.isSome = true) ∧
        (∀ s ∈ b.Opts, s.field = UpdateManyField.Collation →
          s = UpdateManySetter.SetCollation c.Collation)) := by
  refine ⟨?_, ?_, ?_, ?_⟩
  · intro c rest
    refine ⟨_, BuildFindManyOptions_cons c rest, ⟨?_, ?_⟩, ?_, ⟨?_, ?_⟩, ?_⟩
    · rintro ⟨s, hs, hf⟩
      exact (FindSetter_of_field_Collation c s hs hf).2
    · intro h
      exact ⟨_, FindSetter_SetCollation_mem c h, rfl⟩
    · exact fun s hs hf => (FindSetter_of_field_Collation c s hs hf).1
    · rintro ⟨s, hs, hf⟩
      obtain ⟨ct, hct, _⟩ := FindSetter_of_field_CursorType c s hs hf
      simp [hct]
    · intro h
      cases hct : c.CursorType with
      | none => simp [hct] at h
      | some ct => exact ⟨_, FindSetter_SetCursorType_mem c ct hct, rfl⟩
    · exact fun s hs hf => FindSetter_of_field_CursorType c s hs hf
  · intro c rest
    refine ⟨_, BuildFindOneOptions_cons c rest, ⟨?_, ?_⟩, ?_⟩
    · rintro ⟨s, hs, hf⟩
      exact (FindOneSetter_of_field_Collation c s hs hf).2
    · intro h
      exact ⟨_, FindOneSetter_SetCollation_mem c h, rfl⟩
    · exact fun s hs hf => (FindOneSetter_of_field_Collation c s hs hf).1
  · intro c rest
    refine ⟨_, BuildUpdateOneOptions_cons c rest, ⟨?_, ?_⟩, ?_⟩
    · rintro ⟨s, hs, hf⟩
      exact (UpdateOneSetter_of_field_Collation c s hs hf).2
    · intro h
      exact ⟨_, UpdateOneSetter_SetCollation_mem c h, rfl⟩
    · exact fun s hs hf => (UpdateOneSetter_of_field_Collation c s hs hf).1
  · intro c rest
    refine ⟨_, BuildUpdateManyOptions_cons c rest, ⟨?_, ?_⟩, ?_⟩
    · rintro ⟨s, hs, hf⟩
      exact (UpdateManySetter_of_field_Collation c s hs hf).2
    · intro h
      exact ⟨_, UpdateManySetter_SetCollation_mem c h, rfl⟩
    · exact fun s hs hf => (UpdateManySetter_of_field_Collation c s hs hf).1

/-- C15, counterexample: with every option present, sort included, `BuildUpdateOneOptions`
records eight setter calls, `SetSort` among them; with every option of an
update-many configuration present, `BuildUpdateManyOptions` records seven setter
calls and none of them is `SetSort`: update-many has no sort to forward. -/
theorem update_many_records_no_sort_setter :
    (∃ b, BuildUpdateOneOptions [some
          { ArrayFilters := some [Any.doc [("item.sku", Any.str "A1")]],
            BypassDocumentValidation := some true,
            Collation := some { Locale := "en" },
            Comment := Any.str "note",
            Hint := Any.str "idx",
            Upsert := some true,
            Let := Any.doc [("n", Any.int 1)],
            Sort_ := Any.doc [("age", Any.int (-1))] }] = some b ∧
      b.Opts.map UpdateOneSetter.method =
        ["SetArrayFilters", "SetBypassDocumentValidation", "SetSort", "SetComment", "SetHint",
          "SetLet", "SetUpsert", "SetCollation"] ∧
      b.resolve.Sort_ = Any.doc [("age", Any.int (-1))]) ∧
    (∃ b, BuildUpdateManyOptions [some
          { ArrayFilters := some [Any.doc [("item.sku", Any.str "A1")]],
            BypassDocumentValidation := some true,
            Collation := some { Locale := "en" },
            Comment := Any.str "note",
            Hint := Any.str "idx",
            Upsert := some true,
            Let := Any.doc [("n", Any.int 1)] }] = some b ∧
      b.Opts.map UpdateManySetter.method =
        ["SetArrayFilters", "SetBypassDocumentValidation", "SetComment", "SetHint", "SetLet",
          "SetUpsert", "SetCollation"] ∧
      "SetSort" ∉ b.Opts.map UpdateManySetter.method) := by
  refine ⟨⟨_, BuildUpdateOneOptions_cons _ [], rfl, ?_⟩,
    ⟨_, BuildUpdateManyOptions_cons _ [], rfl, ?_⟩⟩
  · rw [BuildUpdateOneOptions_resolve_recorded]
  · simp [BuildUpdateManyOptions.recorded, UpdateManySetter.method]

/-- C15, amended: `BuildUpdateOneOptions` forwards the whole update option list, sort
included: the built options resolve to the sort, array filters, bypass-validation
flag, comment, hint, let-bindings, upsert flag and collation of the
configuration. `BuildUpdateManyOptions` forwards array filters, bypass-validation
flag, comment, hint, let-bindings, upsert flag and collation, and records no
`SetSort` call: an update-many configuration has no sort. -/
theorem update_option_lists_are_forwarded :
    (∀ (c : UpdateOneOptions) (rest : List (Option UpdateOneOptions)),
      ∃ b, BuildUpdateOneOptions (some c :: rest) = some b ∧
        b.resolve.Sort_ = c.Sort_ ∧
        b.resolve.ArrayFilters = c.ArrayFilters ∧
        b.resolve.BypassDocumentValidation = c.BypassDocumentValidation ∧
        b.resolve.Comment = c.Comment ∧
        b.resolve.Hint = c.Hint ∧
        b.resolve.Let = c.Let ∧
        b.resolve.Upsert = c.Upsert ∧
        b.resolve.Collation = c.Collation) ∧
    (∀ (d : UpdateManyOptions) (rest : List (Option UpdateManyOptions)),
      ∃ b, BuildUpdateManyOptions (some d :: rest) = some b ∧
        b.resolve.ArrayFilters = d.ArrayFilters ∧
        b.resolve.BypassDocumentValidation = d.BypassDocumentValidation ∧
        b.resolve.Comment = d.Comment ∧
        b.resolve.Hint = d.Hint ∧
        b.resolve.Let = d.Let ∧
        b.resolve.Upsert = d.Upsert ∧
        b.resolve.Collation = d.Collation ∧
        ∀ s ∈ b.Opts, s.method ≠ "SetSort") := by
  refine ⟨?_, ?_⟩
  · intro c rest
    refine ⟨_, BuildUpdateOneOptions_cons c rest, ?_⟩
    rw [BuildUpdateOneOptions_resolve_recorded]
    exact ⟨rfl, rfl, rfl, rfl, rfl, rfl, rfl, rfl⟩
  · intro d rest
    refine ⟨_, BuildUpdateManyOptions_cons d rest, ?_⟩
    rw [BuildUpdateManyOptions_resolve_recorded]
    refine ⟨rfl, rfl, rfl, rfl, rfl, rfl, rfl, ?_⟩
    intro s _
    cases s <;> simp [UpdateManySetter.method]

/-- C16: with a nil dereference modelled as failure, each of the four variadic
translators returns a builder exactly when its argument list is empty or starts
with a non-nil configuration, and fails when the first argument is a nil
configuration, whatever follows; `BuildDatabaseOptions` returns a builder exactly
when its configuration is non-nil. No option value makes a translator fail. -/
theorem translators_fail_only_on_a_nil_configuration (D : DriverTypes) :
    (∀ opts : List (Option FindOptions), (BuildFindManyOptions opts).isSome = true ↔
      (opts = [] ∨ ∃ c rest, opts = some c :: rest)) ∧
    (∀ rest : List (Option FindOptions), BuildFindManyOptions (none :: rest) = none) ∧
    (∀ opts : List (Option FindOneOptions), (BuildFindOneOptions opts).isSome = true ↔
      (opts = [] ∨ ∃ c rest, opts = some c :: rest)) ∧
    (∀ rest : List (Option FindOneOptions), BuildFindOneOptions (none :: rest) = none) ∧
    (∀ opts : List (Option UpdateOneOptions), (BuildUpdateOneOptions opts).isSome = true ↔
      (opts = [] ∨ ∃ c rest, opts = some c :: rest)) ∧
    (∀ rest : List (Option UpdateOneOptions), BuildUpdateOneOptions (none :: rest) = none) ∧
    (∀ opts : List (Option UpdateManyOptions), (BuildUpdateManyOptions opts).isSome = true ↔
      (opts = [] ∨ ∃ c rest, opts = some c :: rest)) ∧
    (∀ rest : List (Option UpdateManyOptions), BuildUpdateManyOptions (none :: rest) = none) ∧
    (∀ opts : Option (DatabaseOptions D), (BuildDatabaseOptions opts).isSome = true ↔
      opts.isSome = true) ∧
    BuildDatabaseOptions (none : Option (DatabaseOptions D)) = none := by
  refine ⟨?_, fun _ => rfl, ?_, fun _ => rfl, ?_, fun _ => rfl, ?_, fun _ => rfl, ?_, rfl⟩
  · intro opts
    match opts with
    | [] => exact ⟨fun _ => Or.inl rfl, fun _ => rfl⟩
    | none :: rest =>
      refine ⟨fun h => ?_, fun h => ?_⟩
      · exact absurd h (by simp [BuildFindManyOptions])
      · rcases h with h | ⟨c, r, h⟩
        · cases h
        · cases h
    | some c :: rest =>
      rw [BuildFindManyOptions_cons]
      exact ⟨fun _ => Or.inr ⟨c, rest, rfl⟩, fun _ => rfl⟩
  · intro opts
    match opts with
    | [] => exact ⟨fun _ => Or.inl rfl, fun _ => rfl⟩
    | none :: rest =>
      refine ⟨fun h => ?_, fun h => ?_⟩
      · exact absurd h (by simp [BuildFindOneOptions])
      · rcases h with h | ⟨c, r, h⟩
        · cases h
        · cases h
    | some c :: rest =>
      rw [BuildFindOneOptions_cons]
      exact ⟨fun _ => Or.inr ⟨c, rest, rfl⟩, fun _ => rfl⟩
  · intro opts
    match opts with
    | [] => exact ⟨fun _ => Or.inl rfl, fun _ => rfl⟩
    | none :: rest =>
      refine ⟨fun h => ?_, fun h => ?_⟩
      · exact absurd h (by simp [BuildUpdateOneOptions])
      · rcases h with h | ⟨c, r, h⟩
        · cases h
        · cases h
    | some c :: rest =>
      rw [BuildUpdateOneOptions_cons]
      exact ⟨fun _ => Or.inr ⟨c, rest, rfl⟩, fun _ => rfl⟩
  · intro opts
    match opts with
    | [] => exact ⟨fun _ => Or.inl rfl, fun _ => rfl⟩
    | none :: rest =>
      refine ⟨fun h => ?_, fun h => ?_⟩
      · exact absurd h (by simp [BuildUpdateManyOptions])
      · rcases h with h | ⟨c, r, h⟩
        · cases h
        · cases h
    | some c :: rest =>
      rw [BuildUpdateManyOptions_cons]
      exact ⟨fun _ => Or.inr ⟨c, rest, rfl⟩, fun _ => rfl⟩
  · intro opts
    cases opts with
    | none => exact ⟨fun h => absurd h (by simp [BuildDatabaseOptions]), fun h => by cases h⟩
    | some c =>
      rw [BuildDatabaseOptions_some]
      exact ⟨fun _ => rfl, fun _ => rfl⟩

/-- C17: `BuildFindOneOptions` agrees with `BuildFindManyOptions` on their shared
fields. For every non-nil find-one configuration `c1` and non-nil find-many
configuration `cM` with equal AllowPartialResults, Skip, Sort, Comment, Hint, Max,
Min, Projection, ReturnKey and Collation, both translators return a builder, the
two resolved options are equal on those ten fields, and every setter recorded
by the find-one translator assigns one of those ten fields. -/
theorem BuildFindOneOptions_agrees_with_BuildFindManyOptions
    (c1 : FindOneOptions) (cM : FindOptions)
    (rest1 : List (Option FindOneOptions)) (restM : List (Option FindOptions))
    (hAllowPartialResults : c1.AllowPartialResults = cM.AllowPartialResults)
    (hSkip : c1.Skip = cM.Skip)
    (hSort : c1.Sort_ = cM.Sort_)
    (hComment : c1.Comment = cM.Comment)
    (hHint : c1.Hint = cM.Hint)
    (hMax : c1.Max = cM.Max)
    (hMin : c1.Min = cM.Min)
    (hProjection : c1.Projection = cM.Projection)
    (hReturnKey : c1.ReturnKey = cM.ReturnKey)
    (hCollation : c1.Collation = cM.Collation) :
    ∃ b1 bM, BuildFindOneOptions (some c1 :: rest1) = some b1 ∧
      BuildFindManyOptions (some cM :: restM) = some bM ∧
      b1.resolve.AllowPartialResults = bM.resolve.AllowPartialResults ∧
      b1.resolve.Skip = bM.resolve.Skip ∧
      b1.resolve.Sort_ = bM.resolve.Sort_ ∧
      b1.resolve.Comment = bM.resolve.Comment ∧
      b1.resolve.Hint = bM.resolve.Hint ∧
      b1.resolve.Max = bM.resolve.Max ∧
      b1.resolve.Min = bM.resolve.Min ∧
      b1.resolve.Projection = bM.resolve.Projection ∧
      b1.resolve.ReturnKey = bM.resolve.ReturnKey ∧
      b1.resolve.Collation = bM.resolve.Collation ∧
      ∀ s ∈ b1.Opts, s.field ∈ [FindOneField.AllowPartialResults, FindOneField.Skip,
        FindOneField.Sort_, FindOneField.Comment, FindOneField.Hint, FindOneField.Max,
        FindOneField.Min, FindOneField.Projection, FindOneField.ReturnKey,
        FindOneField.Collation] := by
  refine ⟨_, _, BuildFindOneOptions_cons c1 rest1, BuildFindManyOptions_cons cM restM, ?_⟩
  rw [BuildFindOneOptions_resolve_recorded, BuildFindManyOptions_resolve_recorded]
  refine ⟨hAllowPartialResults, hSkip, hSort, congrArg Any.ptr hComment, hHint, hMax, hMin,
    hProjection, hReturnKey, hCollation, ?_⟩
  intro s hs
  have hmem : s.field ∈ (BuildFindOneOptions.recorded c1).map FindOneSetter.field :=
    List.mem_map_of_mem _ hs
  rw [BuildFindOneOptions_recorded_fields] at hmem
  exact (List.mem_filter.mp hmem).1

/-- C17, witness: a find-one configuration with skip 1 and sort `{age: -1}` against a
find-many configuration with the same skip and sort and, besides, a limit of
5. -/
theorem BuildFindOneOptions_agrees_with_BuildFindManyOptions_witness :
    ∃ b1 bM,
      BuildFindOneOptions
        [some { Skip := some 1, Sort_ := Any.doc [("age", Any.int (-1))] }] = some b1 ∧
      BuildFindManyOptions
        [some { Skip := some 1, Sort_ := Any.doc [("age", Any.int (-1))], Limit := some 5 }]
        = some bM ∧
      b1.resolve.AllowPartialResults = bM.resolve.AllowPartialResults ∧
      b1.resolve.Skip = bM.resolve.Skip ∧
      b1.resolve.Sort_ = bM.resolve.Sort_ ∧
      b1.resolve.Comment = bM.resolve.Comment ∧
      b1.resolve.Hint = bM.resolve.Hint ∧
      b1.resolve.Max = bM.resolve.Max ∧
      b1.resolve.Min = bM.resolve.Min ∧
      b1.resolve.Projection = bM.resolve.Projection ∧
      b1.resolve.ReturnKey = bM.resolve.ReturnKey ∧
      b1.resolve.Collation = bM.resolve.Collation ∧
      ∀ s ∈ b1.Opts, s.field ∈ [FindOneField.AllowPartialResults, FindOneField.Skip,
        FindOneField.Sort_, FindOneField.Comment, FindOneField.Hint, FindOneField.Max,
        FindOneField.Min, FindOneField.Projection, FindOneField.ReturnKey,
        FindOneField.Collation] :=
  BuildFindOneOptions_agrees_with_BuildFindManyOptions
    { Skip := some 1, Sort_ := Any.doc [("age", Any.int (-1))] }
    { Skip := some 1, Sort_ := Any.doc [("age", Any.int (-1))], Limit := some 5 }
    [] [] rfl rfl rfl rfl rfl rfl rfl rfl rfl rfl

end Mongodb
